import Mathlib

/-!
# Verification of the supabase-cloner migration orchestration core

Shallow embedding of the migration engine (`MigrationEngine`), the error
recovery engine (`ErrorRecoveryEngine`), the error monitoring system
(`ErrorMonitoringSystem`) and the client-side validators
(`InputValidator` / `SecurityManager`) of the repository, together with
proofs and refutations of the behavioural claims about them.

Conventions of the embedding:
* TypeScript strings stay `String`; percentages (JS `number` used with
  fractional values) become `ℚ`; integral counters become `Nat`/`Int`.
* JS `Map` objects keyed by strings become functional maps
  `String → Option _` / `String → List _`.
* Wall-clock data (`Date.now()`-derived ids and timestamps) carries no
  behavioural weight in the verified code paths and is omitted from the
  records; randomness (`Math.random()`) is threaded as an explicit oracle.
* Thrown JS exceptions become `Except String` / explicit outcome values;
  a thrown `Error` is represented by its message string.
-/

namespace SupabaseCloner

/-! ## String helpers (JS `String.prototype.includes` and regex tests) -/

/-- `hasLead needle hay`: `hay` starts with `needle` (char-exact). -/
def hasLead : List Char → List Char → Bool
  | [], _ => true
  | _ :: _, [] => false
  | c :: cs, d :: ds => c == d && hasLead cs ds

/-- `occursIn needle hay`: `needle` occurs as a contiguous substring of
`hay`; mirrors JS `hay.includes(needle)`. -/
def occursIn (needle : List Char) : List Char → Bool
  | [] => hasLead needle []
  | c :: t => hasLead needle (c :: t) || occursIn needle t

/-- JS `hay.includes(sub)`. -/
def strIncludes (hay sub : String) : Bool :=
  occursIn sub.data hay.data

/-- Case-insensitive variant of `hasLead` (for `/i` regex flags). -/
def hasLeadCI : List Char → List Char → Bool
  | [], _ => true
  | _ :: _, [] => false
  | c :: cs, d :: ds => c.toLower == d.toLower && hasLeadCI cs ds

/-- Case-insensitive substring occurrence. -/
def occursInCI (needle : List Char) : List Char → Bool
  | [] => hasLeadCI needle []
  | c :: t => hasLeadCI needle (c :: t) || occursInCI needle t

/-- JS word character class `\w` = `[A-Za-z0-9_]`. -/
def isWordChar (c : Char) : Bool :=
  ('A' ≤ c && c ≤ 'Z') || ('a' ≤ c && c ≤ 'z') || ('0' ≤ c && c ≤ '9') || c == '_'

/-- A position is a `\b` boundary when the adjacent character is absent
or not a word character. -/
def boundaryOk : Option Char → Bool
  | none => true
  | some c => !isWordChar c

/-- Scan `hay` (with the character preceding the current suffix) for a
case-insensitive occurrence of `kw` delimited by `\b` on both sides. -/
def scanWordCI (kw : List Char) (prev : Option Char) : List Char → Bool
  | [] => false
  | c :: t =>
      (hasLeadCI kw (c :: t) && boundaryOk prev
        && boundaryOk ((List.drop kw.length (c :: t)).head?))
      || scanWordCI kw (some c) t

/-- `/\b(KW1|KW2|...)\b/gi` style test. -/
def containsSQLKeyword (keywords : List String) (hay : String) : Bool :=
  keywords.any fun kw => scanWordCI kw.data none hay.data

/-! ## `SecurityManager.validateSQLInput` and `InputValidator`
(src/unnamed/part_004) -/

/-- The SQL keywords of the first injection pattern. -/
def sqlKeywords : List String :=
  ["SELECT", "INSERT", "UPDATE", "DELETE", "DROP", "CREATE", "ALTER",
   "EXEC", "UNION", "SCRIPT"]

/-- `SecurityManager.validateSQLInput`: `true` when none of the three
injection regexes matches. -/
def validateSQLInput (input : String) : Bool :=
  let p1 := containsSQLKeyword sqlKeywords input
  let p2 := ["--", "/*", "*/", ";"].any fun s => strIncludes input s
  let p3 := ["%27", "'", "%2D", "--"].any fun s =>
    occursInCI s.data input.data
  !(p1 || p2 || p3)

/-- `InputValidator.isValidProjectName`: `/^[a-zA-Z0-9-_]{1,50}$/`. -/
def isValidProjectName (name : String) : Bool :=
  1 ≤ name.data.length && name.data.length ≤ 50 &&
    name.data.all fun c =>
      ('A' ≤ c && c ≤ 'Z') || ('a' ≤ c && c ≤ 'z') ||
      ('0' ≤ c && c ≤ '9') || c == '-' || c == '_'

/-- Hexadecimal digit (case-insensitive). -/
def isHexChar (c : Char) : Bool :=
  ('0' ≤ c && c ≤ '9') || ('a' ≤ c.toLower && c.toLower ≤ 'f')

/-- `InputValidator.isValidOrganizationId`: the UUID regex
`/^[0-9a-f]{8}-[0-9a-f]{4}-[1-5][0-9a-f]{3}-[89ab][0-9a-f]{3}-[0-9a-f]{12}$/i`. -/
def isValidOrganizationId (id : String) : Bool :=
  match (id.splitOn "-").map String.data with
  | [a, b, c, d, e] =>
      a.length == 8 && a.all isHexChar &&
      b.length == 4 && b.all isHexChar &&
      (match c with
       | v :: rest => ['1', '2', '3', '4', '5'].contains v &&
           rest.length == 3 && rest.all isHexChar
       | [] => false) &&
      (match d with
       | v :: rest => ['8', '9', 'a', 'b'].contains v.toLower &&
           rest.length == 3 && rest.all isHexChar
       | [] => false) &&
      e.length == 12 && e.all isHexChar
  | _ => false

/-- `InputValidator.isValidTableName`: `/^[a-zA-Z_][a-zA-Z0-9_]{0,62}$/`. -/
def isValidTableName (name : String) : Bool :=
  match name.data with
  | [] => false
  | c :: rest =>
      (('A' ≤ c && c ≤ 'Z') || ('a' ≤ c && c ≤ 'z') || c == '_') &&
      rest.length ≤ 62 &&
      rest.all fun d =>
        ('A' ≤ d && d ≤ 'Z') || ('a' ≤ d && d ≤ 'z') ||
        ('0' ≤ d && d ≤ '9') || d == '_'

/-- `InputValidator.isValidWhereClause`. -/
def isValidWhereClause (clause : String) : Bool :=
  if clause.data.length == 0 || clause.data.length > 1000 then false
  else validateSQLInput clause

/-! ## Migration configuration and its validator -/

/-- A per-table data filter of the migration configuration. -/
structure DataFilter where
  table : String
  where_clause : String
deriving DecidableEq, Repr

/-- `MigrationConfiguration` (src/src/types/index.ts). `clone_type` stays
a string because `validateMigrationConfig` validates it against the
enumeration at runtime. -/
structure MigrationConfiguration where
  clone_type : String
  target_region : String
  parallel_threads : Int
  batch_size : Int
  enable_compression : Bool
  data_filters : Option (List DataFilter)
  exclude_tables : Option (List String)
  include_storage : Bool
  include_edge_functions : Bool
  include_auth_config : Bool
  preserve_user_data : Bool
deriving DecidableEq, Repr

/-- Errors produced for one entry of `data_filters`. -/
def dataFilterErrors (i : Nat) (f : DataFilter) : List String :=
  (if f.table == "" || !isValidTableName f.table then
    ["Invalid table name in data_filters[" ++ toString i ++ "]"] else []) ++
  (if f.where_clause == "" || !isValidWhereClause f.where_clause then
    ["Invalid where_clause in data_filters[" ++ toString i ++ "]"] else [])

/-- Errors produced for one entry of `exclude_tables`. -/
def excludeTableErrors (i : Nat) (t : String) : List String :=
  if !isValidTableName t then
    ["Invalid table name in exclude_tables[" ++ toString i ++ "]"] else []

/-- `InputValidator.validateMigrationConfig`: the list of validation
errors, accumulated in source order (JS falsiness of absent/empty values
is reflected by the `== ""` / `= 0` disjuncts). -/
def validateMigrationConfig (c : MigrationConfiguration) :
    Bool × List String :=
  let errors :=
    (if !(["full_clone", "schema_only", "data_subset"].contains c.clone_type)
      then ["Invalid clone_type"] else []) ++
    (if c.target_region == "" then ["Invalid target_region"] else []) ++
    (if c.parallel_threads = 0 ∨ c.parallel_threads < 1 ∨ c.parallel_threads > 20
      then ["parallel_threads must be between 1 and 20"] else []) ++
    (if c.batch_size = 0 ∨ c.batch_size < 100 ∨ c.batch_size > 10000
      then ["batch_size must be between 100 and 10000"] else []) ++
    (match c.data_filters with
     | none => []
     | some fs => (fs.enum.map fun p => dataFilterErrors p.1 p.2).flatten) ++
    (match c.exclude_tables with
     | none => []
     | some ts => (ts.enum.map fun p => excludeTableErrors p.1 p.2).flatten)
  (errors.isEmpty, errors)

/-! ## Job, progress and error records (src/src/types/index.ts) -/

/-- Job lifecycle status. -/
inductive JobStatus
  | pending | running | completed | failed | cancelled
deriving DecidableEq, Repr

/-- Per-phase status inside the progress record. -/
inductive PhaseState
  | pending | running | completed | failed | skipped
deriving DecidableEq, Repr

/-- One entry of `MigrationProgress.phases` (start/completion timestamps
are wall-clock data and are omitted). -/
structure PhaseProgress where
  name : String
  status : PhaseState
  percentage : ℚ
  details : String
deriving DecidableEq, Repr

/-- `MigrationProgress.stats`. -/
structure MigrationStats where
  tables_migrated : Nat
  total_tables : Nat
  rows_migrated : Nat
  total_rows : Nat
  storage_objects_migrated : Nat
  total_storage_objects : Nat
  functions_migrated : Nat
  total_functions : Nat
deriving DecidableEq, Repr

/-- `MigrationProgress`. -/
structure MigrationProgress where
  overall_percentage : ℚ
  current_phase : String
  phases : List PhaseProgress
  stats : MigrationStats
deriving DecidableEq, Repr

/-- `MigrationError` (id/timestamp are `Date.now()`-derived and omitted;
`details`/`stack_trace` carry no control flow). -/
structure MigrationError where
  phase : String
  severity : String
  error_code : String
  message : String
  auto_recoverable : Bool
  recovery_attempted : Bool
deriving DecidableEq, Repr

/-- `MigrationJob` (timestamps and durations derived from `Date` are
omitted; they never feed back into control flow). -/
structure MigrationJob where
  id : String
  source_project_id : String
  target_project_id : String
  organization_id : String
  status : JobStatus
  type : String
  progress : MigrationProgress
  configuration : MigrationConfiguration
  error_log : List MigrationError
  estimated_duration : Int
deriving DecidableEq, Repr

/-! ## Error classification (`MigrationEngine`, src/unnamed/part_000) -/

/-- `MigrationEngine.determineSeverity`: keyword heuristics on the raised
error's message (a thrown non-`Error` also lands in the default branch). -/
def determineSeverity (message : String) : String :=
  if strIncludes message "CRITICAL" || strIncludes message "FATAL" then
    "critical"
  else if strIncludes message "CONNECTION" || strIncludes message "TIMEOUT" then
    "high"
  else if strIncludes message "PERMISSION" || strIncludes message "AUTH" then
    "medium"
  else "high"

/-- `MigrationEngine.determineErrorCode`: keyword classifier with the
`UNKNOWN_ERROR` fallback. -/
def determineErrorCode (message : String) : String :=
  if strIncludes message "timeout" then "CONNECTION_TIMEOUT"
  else if strIncludes message "permission" then "PERMISSION_DENIED"
  else if strIncludes message "conflict" then "RESOURCE_CONFLICT"
  else if strIncludes message "not found" then "RESOURCE_NOT_FOUND"
  else if strIncludes message "network" then "NETWORK_ERROR"
  else "UNKNOWN_ERROR"

/-- `MigrationEngine.isAutoRecoverable`. -/
def isAutoRecoverable (message : String) : Bool :=
  ["timeout", "network", "temporary", "retry"].any fun kw =>
    occursIn kw.data (message.data.map Char.toLower)

/-- `MigrationEngine.createMigrationError` applied to a thrown `Error`
with the given message, in the given phase. -/
def createMigrationError (message phase : String) : MigrationError :=
  { phase := phase
    severity := determineSeverity message
    error_code := determineErrorCode message
    message := message
    auto_recoverable := isAutoRecoverable message
    recovery_attempted := false }

/-! ## Engine configuration constants (src/src/lib/config.ts) -/

/-- `config.performance.maxConcurrentMigrations`. -/
def maxConcurrentMigrations : Nat := 5

/-- `config.migration.defaultParallelThreads`. -/
def defaultParallelThreads : Int := 4

/-! ## `MigrationEngine.startMigration` and helpers -/

/-- The ten phases in pipeline order (`initializeProgress`). -/
def allPhases : List String :=
  ["preparation", "schema_migration", "data_migration", "storage_migration",
   "configuration_migration", "edge_functions_migration", "security_migration",
   "realtime_setup", "validation", "cutover"]

/-- `MigrationEngine.initializeProgress`. -/
def initializeProgress : MigrationProgress :=
  { overall_percentage := 0
    current_phase := "preparation"
    phases := allPhases.map fun phase =>
      { name := phase, status := .pending, percentage := 0, details := "" }
    stats :=
      { tables_migrated := 0, total_tables := 0, rows_migrated := 0
        total_rows := 0, storage_objects_migrated := 0
        total_storage_objects := 0, functions_migrated := 0
        total_functions := 0 } }

/-- Options passed to `startMigration` (`MigrationJobOptions`). -/
structure MigrationJobOptions where
  sourceProjectId : String
  targetProjectName : String
  targetRegion : String
  targetTier : String
  configuration : MigrationConfiguration
  organizationId : String
deriving DecidableEq, Repr

/-- `MigrationEngine.estimateMigrationDuration` (milliseconds; JS
`Math.round` is round-half-up, matching Mathlib's `round` on `ℚ`). -/
def estimateMigrationDuration (options : MigrationJobOptions) : Int :=
  let base : ℚ := 5
  let base := base +
    (if options.configuration.clone_type == "schema_only" then 2
     else if options.configuration.clone_type == "data_subset" then 15
     else if options.configuration.clone_type == "full_clone" then 30
     else 0)
  let base := base + (if options.configuration.include_storage then 10 else 0)
  let base := base +
    (if options.configuration.include_edge_functions then 5 else 0)
  let base := base + (if options.configuration.include_auth_config then 3 else 0)
  let threadMultiplier : ℚ :=
    max (1 / 2) (1 - ((options.configuration.parallel_threads : ℚ) - 1) / 10)
  round (base * threadMultiplier * 60 * 1000)

/-- The job record allocated by `startMigration` on acceptance
(`target_project_id` is set only later, after target creation). -/
def newJob (options : MigrationJobOptions) (jobId : String) :
    MigrationJob :=
  { id := jobId
    source_project_id := options.sourceProjectId
    target_project_id := ""
    organization_id := options.organizationId
    status := .pending
    type := options.configuration.clone_type
    progress := initializeProgress
    configuration := options.configuration
    error_log := []
    estimated_duration := estimateMigrationDuration options }

/-- `MigrationEngine.startMigration`: returns the (possibly extended)
job registry together with either the new job id or the thrown error's
message. The registry is the engine's `activeJobs` map, represented as a
list of jobs (`jobId` stands in for `generateJobId()`). -/
def startMigration (options : MigrationJobOptions) (jobId : String)
    (activeJobs : List MigrationJob) :
    List MigrationJob × Except String String :=
  let configValidation := validateMigrationConfig options.configuration
  if !configValidation.1 then
    (activeJobs,
     .error ("Migration configuration validation failed: " ++
       String.intercalate ", " configValidation.2))
  else if !isValidProjectName options.targetProjectName then
    (activeJobs, .error "Invalid target project name format")
  else if !isValidOrganizationId options.organizationId then
    (activeJobs, .error "Invalid organization ID format")
  else
    let activeMigrations := activeJobs.filter fun job =>
      job.status == .running && job.organization_id == options.organizationId
    if activeMigrations.length ≥ maxConcurrentMigrations then
      (activeJobs,
       .error ("Maximum concurrent migrations (" ++
         toString maxConcurrentMigrations ++ ") reached for organization"))
    else
      (activeJobs ++ [newJob options jobId], .ok jobId)

/-- `MigrationEngine.cancelMigration`, acting on the single job it
affects (looking the job up in `activeJobs` precedes this; a missing job
also throws, which the registry-level wrapper below models). -/
def cancelMigration (job : MigrationJob) : Except String MigrationJob :=
  if job.status = .completed ∨ job.status = .failed then
    .error "Cannot cancel completed or failed migration"
  else
    .ok { job with
      status := .cancelled
      progress := { job.progress with overall_percentage := 0 } }

/-! ## The fault-free execution trace of `executeMigration`
(src/unnamed/part_000, lines 205–285 and the phase executors)

`executeMigration` mutates the job through `job.status = ...`,
`updateProgress` and the final completion block.  The trace below lists
those mutations in source order for a run in which no phase executor
throws.  `updateProgress` also rewrites `stats` counters; these never
feed back into status or percentage and are not tracked. -/

/-- One observable mutation of the job performed by the engine. -/
inductive EngineAction
  | setRunning
  | setPct (phase : String) (p : ℚ)
  | complete
deriving DecidableEq, Repr

/-- Effect of one engine action on the job (the completion block sets
`status = 'completed'` then forces the percentage to 100). -/
def applyAction (j : MigrationJob) : EngineAction → MigrationJob
  | .setRunning => { j with status := .running }
  | .setPct phase p =>
      { j with progress :=
          { j.progress with overall_percentage := p, current_phase := phase } }
  | .complete =>
      { j with status := .completed
               progress := { j.progress with overall_percentage := 100 } }

/-- Progress updates of the `for` loops in `migrateStorage` /
`migrateEdgeFunctions`: `base + ((i + 1) / n) * width` for `i < n`. -/
def loopUpdates (base width : ℚ) (n : Nat) : List ℚ :=
  (List.range n).map fun (i : Nat) => base + (((i : ℚ) + 1) / (n : ℚ)) * width

/-- Progress updates of `migrateData`: an initial 35 then
`35 + i * 0.25` for `i = 0, 10, …, 100`. -/
def dataUpdates : List ℚ :=
  35 :: (List.range 11).map fun (k : Nat) => 35 + (10 * (k : ℚ)) * (1 / 4)

/-- The `(current_phase, overall_percentage)` arguments of every
`updateProgress` call of a fault-free run, in source order.  `b` is the
number of storage buckets and `f` the number of edge functions reported
by the management API. -/
def runUpdates (c : MigrationConfiguration) (b f : Nat) :
    List (String × ℚ) :=
  [("preparation", 5), ("preparation", 10)] ++
  [("schema_migration", 15), ("schema_migration", 30)] ++
  (if c.clone_type ≠ "schema_only" then
    dataUpdates.map (("data_migration", ·)) else []) ++
  (if c.include_storage then
    ("storage_migration", 60) ::
      (loopUpdates 60 10 b).map (("storage_migration", ·)) else []) ++
  [("configuration_migration", 70), ("configuration_migration", 75)] ++
  (if c.include_edge_functions then
    ("edge_functions_migration", 75) ::
      (loopUpdates 75 5 f).map (("edge_functions_migration", ·)) else []) ++
  [("security_migration", 80), ("security_migration", 85)] ++
  [("realtime_setup", 85), ("realtime_setup", 90)] ++
  [("validation", 90), ("validation", 95)] ++
  [("cutover", 95), ("cutover", 100)]

/-- All mutations of a fault-free `executeMigration` run. -/
def engineActions (c : MigrationConfiguration) (b f : Nat) :
    List EngineAction :=
  .setRunning :: (runUpdates c b f).map (fun u => .setPct u.1 u.2) ++
    [.complete]

/-- Run a list of engine actions over a job. -/
def runActions (j : MigrationJob) (l : List EngineAction) : MigrationJob :=
  l.foldl applyAction j

/-- The successive `(status, overall_percentage)` states of a job under
a list of engine actions, initial state included. -/
def runStates (j : MigrationJob) (l : List EngineAction) :
    List (JobStatus × ℚ) :=
  (l.scanl applyAction j).map fun jb =>
    (jb.status, jb.progress.overall_percentage)

/-- The state trace of a fault-free migration of a freshly created job. -/
def migrationStates (options : MigrationJobOptions) (jobId : String)
    (b f : Nat) : List (JobStatus × ℚ) :=
  runStates (newJob options jobId)
    (engineActions options.configuration b f)

/-! ## Error recovery engine (src/src/lib/error-recovery.ts) -/

/-- A checkpoint (`Checkpoint`); the opaque `state` blob and the
timestamp are never consulted by control flow and are omitted. -/
structure Checkpoint where
  id : String
  jobId : String
  phase : String
  progress : MigrationProgress
  canRollback : Bool
  rollbackInstructions : List String
deriving DecidableEq, Repr

/-- `ErrorRecoveryEngine.canRollbackFromPhase`. -/
def canRollbackFromPhase (phase : String) : Bool :=
  !(["cutover", "validation"].contains phase)

/-- `ErrorRecoveryEngine.generateRollbackInstructions`. -/
def generateRollbackInstructions (phase : String) : List String :=
  if phase == "preparation" then ["Delete created target project"]
  else if phase == "schema_migration" then
    ["Drop created tables and schemas", "Remove database extensions"]
  else if phase == "data_migration" then
    ["Truncate migrated tables", "Reset sequences"]
  else if phase == "storage_migration" then
    ["Delete created storage buckets", "Remove uploaded objects"]
  else if phase == "edge_functions_migration" then ["Delete deployed functions"]
  else if phase == "security_migration" then
    ["Remove RLS policies", "Drop custom roles"]
  else if phase == "realtime_setup" then ["Remove realtime publications"]
  else []

/-- One recorded recovery attempt (id/timestamp/duration omitted). -/
structure RecoveryAttempt where
  strategy : String
  success : Bool
deriving DecidableEq, Repr

/-- `RecoveryContext` (the `job` reference is represented by its id). -/
structure RecoveryContext where
  jobId : String
  phase : String
  attemptNumber : Nat
  previousAttempts : List RecoveryAttempt
  errorHistory : List MigrationError
deriving DecidableEq, Repr

/-- The four recovery decisions. -/
inductive RecoveryAction
  | retry | skip | rollback | manual_intervention
deriving DecidableEq, Repr

/-- `RecoveryResult`. -/
structure RecoveryResult where
  success : Bool
  action : RecoveryAction
  message : String
  delayBeforeRetry : Option Nat := none
  rollbackToPhase : Option String := none
  requiresManualIntervention : Bool := false
deriving DecidableEq, Repr

/-- Backoff kinds. -/
inductive BackoffKind
  | linear | exponential | fixed
deriving DecidableEq, Repr

/-- Static data of a recovery strategy (the `execute` closure is
modelled by `executeStrategy` below, dispatching on `id`). -/
structure RecoveryStrategy where
  id : String
  applicableErrors : List String
  maxRetries : Nat
  backoffStrategy : BackoffKind
  baseDelay : Nat
  maxDelay : Nat
deriving DecidableEq, Repr

/-- The six strategies of `initializeDefaultStrategies`, in
registration order. -/
def connectionRetryStrategy : RecoveryStrategy :=
  { id := "connection-retry"
    applicableErrors := ["CONNECTION_TIMEOUT", "CONNECTION_REFUSED", "NETWORK_ERROR"]
    maxRetries := 5, backoffStrategy := .exponential
    baseDelay := 1000, maxDelay := 30000 }

/-- `resource-cleanup` strategy data. -/
def resourceCleanupStrategy : RecoveryStrategy :=
  { id := "resource-cleanup"
    applicableErrors := ["RESOURCE_CONFLICT", "RESOURCE_LOCKED", "RESOURCE_EXISTS"]
    maxRetries := 3, backoffStrategy := .linear
    baseDelay := 2000, maxDelay := 10000 }

/-- `permission-escalation` strategy data. -/
def permissionEscalationStrategy : RecoveryStrategy :=
  { id := "permission-escalation"
    applicableErrors := ["PERMISSION_DENIED", "INSUFFICIENT_PRIVILEGES", "AUTH_FAILED"]
    maxRetries := 2, backoffStrategy := .fixed
    baseDelay := 5000, maxDelay := 5000 }

/-- `data-integrity-repair` strategy data. -/
def dataIntegrityRepairStrategy : RecoveryStrategy :=
  { id := "data-integrity-repair"
    applicableErrors := ["DATA_CORRUPTION", "CONSTRAINT_VIOLATION", "FOREIGN_KEY_ERROR"]
    maxRetries := 2, backoffStrategy := .fixed
    baseDelay := 3000, maxDelay := 3000 }

/-- `partial-rollback` strategy data. -/
def partialRollbackStrategy : RecoveryStrategy :=
  { id := "partial-rollback"
    applicableErrors := ["CRITICAL_ERROR", "SYSTEM_ERROR", "UNEXPECTED_ERROR"]
    maxRetries := 1, backoffStrategy := .fixed
    baseDelay := 0, maxDelay := 0 }

/-- `graceful-degradation` strategy data. -/
def gracefulDegradationStrategy : RecoveryStrategy :=
  { id := "graceful-degradation"
    applicableErrors := ["OPTIONAL_COMPONENT_ERROR", "FEATURE_NOT_SUPPORTED"]
    maxRetries := 0, backoffStrategy := .fixed
    baseDelay := 0, maxDelay := 0 }

/-- The strategy registry (`recoveryStrategies` map, insertion order). -/
def recoveryStrategies : List RecoveryStrategy :=
  [connectionRetryStrategy, resourceCleanupStrategy,
   permissionEscalationStrategy, dataIntegrityRepairStrategy,
   partialRollbackStrategy, gracefulDegradationStrategy]

/-- `calculateBackoffDelay` (attempt numbers are ≥ 1 in every reachable
context, so the `n - 1` truncated subtraction matches JS). -/
def calculateBackoffDelay (s : RecoveryStrategy) (attemptNumber : Nat) : Nat :=
  match s.backoffStrategy with
  | .linear => min (s.baseDelay * attemptNumber) s.maxDelay
  | .exponential => min (s.baseDelay * 2 ^ (attemptNumber - 1)) s.maxDelay
  | .fixed => s.baseDelay

/-- The hand-ordered priority list of `findApplicableStrategies`. -/
def strategyPriority : List String :=
  ["connection-retry", "resource-cleanup", "data-integrity-repair",
   "permission-escalation", "graceful-degradation", "partial-rollback"]

/-- Insert a strategy into a list sorted by priority index (all
registered priorities are distinct, so this agrees with the JS
`Array.prototype.sort` of the source). -/
def insertByPriority (s : RecoveryStrategy) :
    List RecoveryStrategy → List RecoveryStrategy
  | [] => [s]
  | x :: xs =>
      if strategyPriority.indexOf s.id ≤ strategyPriority.indexOf x.id then
        s :: x :: xs
      else x :: insertByPriority s xs

/-- Sort strategies by priority index (insertion sort). -/
def sortByPriority : List RecoveryStrategy → List RecoveryStrategy
  | [] => []
  | x :: xs => insertByPriority x (sortByPriority xs)

/-- `findApplicableStrategies`: filter by applicable code, then sort by
priority index. -/
def findApplicableStrategies (code : String) : List RecoveryStrategy :=
  sortByPriority
    (recoveryStrategies.filter fun s => s.applicableErrors.contains code)

/-- Mutable state of the recovery engine: the per-job checkpoint lists
and the per-job active recovery contexts. -/
structure RecoveryEngineState where
  checkpoints : String → List Checkpoint
  activeRecoveries : String → Option RecoveryContext

/-- The freshly constructed engine. -/
def initialRecoveryState : RecoveryEngineState :=
  { checkpoints := fun _ => [], activeRecoveries := fun _ => none }

/-- `createCheckpoint` (`cpId` stands in for the `Date.now()`-derived
id): append, then trim to the last 10. -/
def createCheckpoint (st : RecoveryEngineState) (jobId phase : String)
    (progress : MigrationProgress) (cpId : String) : RecoveryEngineState :=
  let cp : Checkpoint :=
    { id := cpId, jobId := jobId, phase := phase, progress := progress
      canRollback := canRollbackFromPhase phase
      rollbackInstructions := generateRollbackInstructions phase }
  let l := st.checkpoints jobId ++ [cp]
  let l := if l.length > 10 then l.drop (l.length - 10) else l
  { st with checkpoints := Function.update st.checkpoints jobId l }

/-- `rollbackToCheckpoint`.  `instrOk` tells whether replaying a given
rollback instruction succeeds (the `try`/`catch` around the replay
loop); on any failure the checkpoint list is left untouched and the
rollback reports `false`. -/
def rollbackToCheckpoint (st : RecoveryEngineState) (jobId checkpointId : String)
    (instrOk : String → Bool) : RecoveryEngineState × Bool :=
  let checkpoints := st.checkpoints jobId
  match checkpoints.find? (fun cp => cp.id == checkpointId) with
  | none => (st, false)
  | some cp =>
      if !cp.canRollback then (st, false)
      else if cp.rollbackInstructions.all instrOk then
        let rollbackIndex := checkpoints.findIdx fun c => c.id == checkpointId
        let kept := checkpoints.take (rollbackIndex + 1)
        ({ st with checkpoints := Function.update st.checkpoints jobId kept },
         true)
      else (st, false)

/-- `getJobCheckpoints`. -/
def getJobCheckpoints (st : RecoveryEngineState) (jobId : String) :
    List Checkpoint :=
  st.checkpoints jobId

/-- External nondeterminism consumed by strategy executors:
`Math.random()` in `executeDataIntegrityRepair` and the outcome of
rollback-instruction replay. -/
structure Oracle where
  repairOk : Bool
  instrOk : String → Bool

/-- The `execute` member of each registered strategy, dispatched by
strategy id exactly as the `bind`-ed methods of the source. -/
def executeStrategy (sid : String) (ctx : RecoveryContext)
    (st : RecoveryEngineState) (o : Oracle) :
    RecoveryEngineState × RecoveryResult :=
  if sid == "connection-retry" then
    (st, { success := true, action := .retry
           message := "Retrying after connection error"
           delayBeforeRetry :=
             some (calculateBackoffDelay connectionRetryStrategy ctx.attemptNumber) })
  else if sid == "resource-cleanup" then
    (st, { success := true, action := .retry
           message := "Resources cleaned up, retrying operation"
           delayBeforeRetry := some 2000 })
  else if sid == "permission-escalation" then
    (st, { success := false, action := .manual_intervention
           message := "Permission issue requires manual intervention"
           requiresManualIntervention := true })
  else if sid == "data-integrity-repair" then
    (st, { success := o.repairOk, action := .retry
           message := "Attempted data integrity repair" })
  else if sid == "partial-rollback" then
    match (st.checkpoints ctx.jobId).getLast? with
    | none =>
        (st, { success := false, action := .manual_intervention
               message := "No checkpoints available for rollback"
               requiresManualIntervention := true })
    | some lastCheckpoint =>
        let res := rollbackToCheckpoint st ctx.jobId lastCheckpoint.id o.instrOk
        (res.1,
         { success := res.2
           action := if res.2 then .retry else .manual_intervention
           message := if res.2 then
               "Rolled back to " ++ lastCheckpoint.phase ++ " phase"
             else "Rollback failed"
           rollbackToPhase := if res.2 then some lastCheckpoint.phase else none
           requiresManualIntervention := !res.2 })
  else if sid == "graceful-degradation" then
    (st, { success := true, action := .skip
           message := "Skipping optional component due to error" })
  else
    -- never reached: every id of `recoveryStrategies` is handled above
    (st, { success := false, action := .manual_intervention, message := ""
           requiresManualIntervention := true })

/-- The decision returned when no strategy applies. -/
def noStrategyResult : RecoveryResult :=
  { success := false, action := .manual_intervention
    message := "No recovery strategy available for this error"
    requiresManualIntervention := true }

/-- The decision returned when every applicable strategy was skipped or
failed with a retry action. -/
def allFailedResult : RecoveryResult :=
  { success := false, action := .manual_intervention
    message := "All recovery strategies failed"
    requiresManualIntervention := true }

/-- The strategy loop of `handleError`.  Returns the new engine state,
the decision, and the ids of the strategies whose executor actually ran
(in order). -/
def tryStrategies (jobId : String) (o : Oracle) :
    List RecoveryStrategy → RecoveryEngineState → RecoveryContext →
    List String → RecoveryEngineState × RecoveryResult × List String
  | [], st, _, executed =>
      let cleared := Function.update st.activeRecoveries jobId none
      ({ st with activeRecoveries := cleared }, allFailedResult, executed)
  | s :: rest, st, ctx, executed =>
      if ctx.attemptNumber > s.maxRetries then
        tryStrategies jobId o rest st ctx executed
      else
        let step := executeStrategy s.id ctx st o
        let result := step.2
        let attempt : RecoveryAttempt :=
          { strategy := s.id, success := result.success }
        let ctx' :=
          { ctx with previousAttempts := ctx.previousAttempts ++ [attempt] }
        let withCtx := Function.update step.1.activeRecoveries jobId (some ctx')
        let st' := { step.1 with activeRecoveries := withCtx }
        if result.success then
          let cleared := Function.update st'.activeRecoveries jobId none
          ({ st' with activeRecoveries := cleared }, result, executed ++ [s.id])
        else if result.action ≠ .retry then
          (st', result, executed ++ [s.id])
        else
          tryStrategies jobId o rest st' ctx' (executed ++ [s.id])

/-- Body of `ErrorRecoveryEngine.handleError`; the job enters only
through its id (the source stores the job reference in the context but
consults nothing else of it). -/
def handleErrorCore (st : RecoveryEngineState) (jobId : String)
    (err : MigrationError) (phase : String) (o : Oracle) :
    RecoveryEngineState × RecoveryResult × List String :=
  let applicableStrategies := findApplicableStrategies err.error_code
  if applicableStrategies.isEmpty then (st, noStrategyResult, [])
  else
    let context : RecoveryContext :=
      match st.activeRecoveries jobId with
      | none =>
          { jobId := jobId, phase := phase, attemptNumber := 1
            previousAttempts := [], errorHistory := [err] }
      | some c =>
          { c with attemptNumber := c.attemptNumber + 1
                   errorHistory := c.errorHistory ++ [err] }
    let withCtx := Function.update st.activeRecoveries jobId (some context)
    let st := { st with activeRecoveries := withCtx }
    tryStrategies jobId o applicableStrategies st context []

/-- `ErrorRecoveryEngine.handleError`. -/
def handleError (st : RecoveryEngineState) (job : MigrationJob)
    (err : MigrationError) (phase : String) (o : Oracle) :
    RecoveryEngineState × RecoveryResult × List String :=
  handleErrorCore st job.id err phase o

/-! ## Error monitoring (src/unnamed/part_005) -/

/-- A detected error pattern (`ErrorPattern`; `lastOccurrence`,
`description` and `suggestedActions` are display data derived from the
first error and are omitted).  `severity` is fixed when the pattern is
first created. -/
structure ErrorPattern where
  id : String
  frequency : Nat
  severity : String
deriving DecidableEq, Repr

/-- An alert (`ErrorAlert`; id/timestamp/acknowledgement lifecycle are
omitted — no claim touches them). -/
structure ErrorAlert where
  type : String
  severity : String
  title : String
  message : String
deriving DecidableEq, Repr

/-- State of `ErrorMonitoringSystem`: the fault log, the pattern map
keyed by `code_phase`, and the alert list. -/
structure MonitoringState where
  errors : List MigrationError
  patterns : String → Option ErrorPattern
  alerts : List ErrorAlert

/-- Freshly constructed monitoring system. -/
def initialMonitoringState : MonitoringState :=
  { errors := [], patterns := fun _ => none, alerts := [] }

/-- `config.criticalErrorThreshold` (critical errors in 10 minutes). -/
def criticalErrorThreshold : Nat := 3

/-- `ErrorMonitoringSystem.updateErrorPatterns`: bump (or create) the
`(code, phase)` pattern and raise a `pattern_detected` alert whenever
the bumped frequency is ≥ 5 and the pattern's recorded severity is
high. -/
def updateErrorPatterns (m : MonitoringState) (error : MigrationError) :
    MonitoringState :=
  let patternKey := error.error_code ++ "_" ++ error.phase
  let pattern : ErrorPattern :=
    match m.patterns patternKey with
    | none => { id := patternKey, frequency := 0, severity := error.severity }
    | some p => p
  let pattern := { pattern with frequency := pattern.frequency + 1 }
  let withPattern := Function.update m.patterns patternKey (some pattern)
  let m := { m with patterns := withPattern }
  if pattern.frequency ≥ 5 ∧ pattern.severity = "high" then
    { m with alerts := m.alerts ++
      [{ type := "pattern_detected", severity := "high"
         title := "Error Pattern Detected: " ++ error.error_code ++ " in " ++
           error.phase ++ " phase"
         message := "Pattern has occurred " ++ toString pattern.frequency ++
           " times" }] }
  else m

/-- `ErrorMonitoringSystem.checkForAlerts`.  The 10-minute metrics
window is wall-clock data; the model counts critical errors over the
whole retained log, which coincides with the source for the traces the
claims quantify over. -/
def checkForAlerts (m : MonitoringState) (error : MigrationError)
    (job : MigrationJob) : MonitoringState :=
  let m :=
    if error.severity = "critical" then
      { m with alerts := m.alerts ++
        [{ type := "critical_error", severity := "critical"
           title := "Critical Migration Error"
           message := "Critical error in job " ++ job.id ++ ": " ++
             error.message }] }
    else m
  let criticalCount :=
    (m.errors.filter fun e => e.severity == "critical").length
  if criticalCount ≥ criticalErrorThreshold then
    { m with alerts := m.alerts ++
      [{ type := "threshold_exceeded", severity := "high"
         title := "Critical Error Threshold Exceeded"
         message := toString criticalCount ++
           " critical errors in the last 10 minutes" }] }
  else m

/-- `ErrorMonitoringSystem.recordError`. -/
def recordError (m : MonitoringState) (error : MigrationError)
    (job : MigrationJob) : MonitoringState :=
  let m := { m with errors := m.errors ++ [error] }
  let m := updateErrorPatterns m error
  checkForAlerts m error job

/-! ## `MigrationEngine.executePhase` (src/unnamed/part_000, 290–363)

The phase executor is abstracted by `attempts : Nat → Option String`:
`attempts k = none` means the `k`-th execution of the phase body
succeeds, `attempts k = some msg` means it throws an `Error` with
message `msg`. -/

/-- `updatePhaseStatus`: set the status of the first phase entry with
the given name (timestamps omitted). -/
def setPhaseStatusFirst (phase : String) (status : PhaseState) :
    List PhaseProgress → List PhaseProgress
  | [] => []
  | pp :: rest =>
      if pp.name == phase then { pp with status := status } :: rest
      else pp :: setPhaseStatusFirst phase status rest

/-- `updatePhaseStatus` on the whole job. -/
def updatePhaseStatus (j : MigrationJob) (phase : String)
    (status : PhaseState) : MigrationJob :=
  { j with progress := { j.progress with
      phases := setPhaseStatusFirst phase status j.progress.phases } }

/-- `MigrationEngine.rollbackToPhase`: restore the first checkpoint of
the target phase (when it exists) and overwrite the job's progress with
the checkpoint's. -/
def rollbackToPhase (recSt : RecoveryEngineState) (job : MigrationJob)
    (targetPhase : String) (instrOk : String → Bool) :
    RecoveryEngineState × MigrationJob :=
  let checkpoints := getJobCheckpoints recSt job.id
  match checkpoints.find? (fun cp => cp.phase == targetPhase) with
  | none => (recSt, job)
  | some targetCheckpoint =>
      let res := rollbackToCheckpoint recSt job.id targetCheckpoint.id instrOk
      (res.1, { job with progress := targetCheckpoint.progress })

/-- `MigrationEngine.handleMigrationError`: classify the raw error and
record it in the monitoring system (it is not appended to
`job.error_log` there). -/
def handleMigrationError (mon : MonitoringState) (job : MigrationJob)
    (phase message : String) : MonitoringState :=
  recordError mon (createMigrationError message phase) job

/-- Result of one `executePhase` call. -/
structure PhaseRunResult where
  recovery : RecoveryEngineState
  monitoring : MonitoringState
  job : MigrationJob
  /-- `some msg` when `executePhase` threw an error with message `msg`. -/
  thrown : Option String
  /-- The `delayBeforeRetry` waits performed before re-running the phase. -/
  delays : List Nat
  /-- Ids of all strategy executors run during this phase. -/
  executed : List String

/-- The `while (retryCount <= maxRetries)` loop.  `fuel` is
`maxRetries + 1 - retryCount`, so `fuel = 0` is the loop-condition exit
(which in the source resolves the phase without further action). -/
def executePhaseLoop (phase : String) (attempts : Nat → Option String)
    (o : Oracle) :
    Nat → Nat → Nat → RecoveryEngineState → MonitoringState →
    MigrationJob → List Nat → List String → PhaseRunResult
  | 0, _, _, recSt, mon, job, delays, executed =>
      { recovery := recSt, monitoring := mon, job := job, thrown := none
        delays := delays, executed := executed }
  | fuel + 1, retryCount, attemptIdx, recSt, mon, job, delays, executed =>
      let job := updatePhaseStatus job phase .running
      match attempts attemptIdx with
      | none =>
          { recovery := recSt, monitoring := mon
            job := updatePhaseStatus job phase .completed, thrown := none
            delays := delays, executed := executed }
      | some msg =>
          let migrationError := createMigrationError msg phase
          let mon := recordError mon migrationError job
          let job := { job with error_log := job.error_log ++ [migrationError] }
          if retryCount < 3 then
            let step := handleError recSt job migrationError phase o
            let recSt := step.1
            let recoveryResult := step.2.1
            let executed := executed ++ step.2.2
            if recoveryResult.success ∧ recoveryResult.action = .retry then
              let delays := delays ++
                (match recoveryResult.delayBeforeRetry with
                 | some d => [d]
                 | none => [])
              executePhaseLoop phase attempts o fuel (retryCount + 1)
                (attemptIdx + 1) recSt mon job delays executed
            else if recoveryResult.success ∧ recoveryResult.action = .skip then
              { recovery := recSt, monitoring := mon
                job := updatePhaseStatus job phase .completed, thrown := none
                delays := delays, executed := executed }
            else if recoveryResult.success ∧ recoveryResult.action = .rollback ∧
                recoveryResult.rollbackToPhase.isSome then
              let target := recoveryResult.rollbackToPhase.getD ""
              let rolled := rollbackToPhase recSt job target o.instrOk
              { recovery := rolled.1, monitoring := mon, job := rolled.2
                thrown := some ("Rolled back to " ++ target ++ " phase")
                delays := delays, executed := executed }
            else if recoveryResult.requiresManualIntervention then
              { recovery := recSt, monitoring := mon
                job := updatePhaseStatus job phase .failed
                thrown := some ("Manual intervention required: " ++
                  recoveryResult.message)
                delays := delays, executed := executed }
            else
              executePhaseLoop phase attempts o fuel (retryCount + 1)
                (attemptIdx + 1) recSt mon job delays executed
          else
            let job := updatePhaseStatus job phase .failed
            let mon := handleMigrationError mon job phase msg
            { recovery := recSt, monitoring := mon, job := job
              thrown := some msg, delays := delays, executed := executed }

/-- `MigrationEngine.executePhase`: checkpoint, then run the retry
loop with `retryCount = 0`, `maxRetries = 3`. -/
def executePhase (recSt : RecoveryEngineState) (mon : MonitoringState)
    (job : MigrationJob) (phase : String) (attempts : Nat → Option String)
    (o : Oracle) (cpId : String) : PhaseRunResult :=
  let recSt := createCheckpoint recSt job.id phase job.progress cpId
  executePhaseLoop phase attempts o 4 0 0 recSt mon job [] []

/-- The `catch` block of `executeMigration`: a phase that threw marks
the job failed (timestamps omitted). -/
def jobAfterPhaseStep (r : PhaseRunResult) : MigrationJob :=
  match r.thrown with
  | some _ => { r.job with status := .failed }
  | none => r.job

/-! ## Derived notions used by the verification -/

/-- The trimming policy of the checkpoint store: keep the last 10. -/
def keepLastTen (l : List Checkpoint) : List Checkpoint :=
  l.drop (l.length - 10)

/-- One `createCheckpoint` invocation. -/
structure CheckpointCall where
  jobId : String
  phase : String
  progress : MigrationProgress
  cpId : String

/-- The checkpoint record built by `createCheckpoint`. -/
def buildCheckpoint (call : CheckpointCall) : Checkpoint :=
  { id := call.cpId, jobId := call.jobId, phase := call.phase
    progress := call.progress
    canRollback := canRollbackFromPhase call.phase
    rollbackInstructions := generateRollbackInstructions call.phase }

/-- Run a sequence of `createCheckpoint` calls on a fresh engine. -/
def runCheckpointCalls (calls : List CheckpointCall) : RecoveryEngineState :=
  calls.foldl
    (fun st call => createCheckpoint st call.jobId call.phase call.progress call.cpId)
    initialRecoveryState

/-- The checkpoints a sequence of calls creates for one job, in order. -/
def checkpointsFor (jobId : String) (calls : List CheckpointCall) :
    List Checkpoint :=
  (calls.filter fun call => call.jobId == jobId).map buildCheckpoint

/-- Number of `pattern_detected` alerts currently raised. -/
def patternAlertCount (m : MonitoringState) : Nat :=
  (m.alerts.filter fun a => a.type == "pattern_detected").length

/-- Record the same error `k` times on a fresh monitoring system. -/
def recordRepeated (e : MigrationError) (job : MigrationJob) (k : Nat) :
    MonitoringState :=
  (List.replicate k e).foldl (fun m err => recordError m err job)
    initialMonitoringState

/-- A list of rationals that is non-decreasing and bounded by `[lo, hi]`. -/
def BChain (lo hi : ℚ) (l : List ℚ) : Prop :=
  List.Chain' (· ≤ ·) l ∧ (∀ x ∈ l, lo ≤ x ∧ x ≤ hi) ∧ lo ≤ hi

/-! ## Concrete sample inputs -/

/-- A well-formed full-clone configuration. -/
def sampleCfg : MigrationConfiguration where
  clone_type := "full_clone"
  target_region := "us-east-1"
  parallel_threads := 4
  batch_size := 1000
  enable_compression := true
  data_filters := none
  exclude_tables := none
  include_storage := true
  include_edge_functions := true
  include_auth_config := true
  preserve_user_data := true

/-- Well-formed submission options over `sampleCfg`. -/
def sampleOpts : MigrationJobOptions where
  sourceProjectId := "src-project"
  targetProjectName := "target-clone"
  targetRegion := "us-east-1"
  targetTier := "pro"
  configuration := sampleCfg
  organizationId := "123e4567-e89b-12d3-a456-426614174000"

/-- `sampleOpts` with an out-of-bounds thread count. -/
def sampleOptsBadThreads : MigrationJobOptions :=
  { sampleOpts with
      configuration := { sampleCfg with parallel_threads := 25 } }

/-- A running job of the sample organization. -/
def sampleRunningJob : MigrationJob :=
  { newJob sampleOpts "job-run" with status := .running }

/-- A deterministic oracle (repairs succeed, instructions succeed). -/
def sampleOracle : Oracle := { repairOk := true, instrOk := fun _ => true }

/-- An error message the keyword classifier maps to
`CONNECTION_TIMEOUT`. -/
def timeoutMessage : String := "Connection timeout while fetching schema"

/-- A high-severity `CONNECTION_TIMEOUT` fault in `data_migration`. -/
def sampleHighError : MigrationError where
  phase := "data_migration"
  severity := "high"
  error_code := "CONNECTION_TIMEOUT"
  message := "connection dropped"
  auto_recoverable := true
  recovery_attempted := false

/-- A checkpoint-creation call for job `j` with id `cp<i>`. -/
def sampleCall (i : Nat) : CheckpointCall :=
  { jobId := "j", phase := "data_migration", progress := initializeProgress
    cpId := "cp" ++ toString i }

/-- An error message the keyword classifier maps to `PERMISSION_DENIED`. -/
def permissionMessage : String := "permission denied for schema changes"

/-- The decision `executePermissionEscalation` returns. -/
def permissionEscalationResult : RecoveryResult :=
  { success := false, action := .manual_intervention
    message := "Permission issue requires manual intervention"
    requiresManualIntervention := true }

/-! ## General lemmas about the checkpoint store -/

/-- The conditional trim of `createCheckpoint` always keeps the last 10
elements (for short lists `l.length - 10 = 0` and nothing is dropped). -/
theorem trim_eq_keepLastTen (l : List Checkpoint) :
    (if l.length > 10 then l.drop (l.length - 10) else l) = keepLastTen l := by
  unfold keepLastTen
  split
  · rfl
  · rename_i h
    have : l.length - 10 = 0 := by omega
    rw [this, List.drop_zero]

/-- Trimming is idempotent across appends: trimming, appending one
element and trimming again agrees with trimming the full history. -/
theorem keepLastTen_append_singleton (l : List Checkpoint) (a : Checkpoint) :
    keepLastTen (keepLastTen l ++ [a]) = keepLastTen (l ++ [a]) := by
  unfold keepLastTen
  by_cases h : l.length ≤ 10
  · have : l.length - 10 = 0 := by omega
    rw [this, List.drop_zero]
  · push_neg at h
    have hlen : (l.drop (l.length - 10)).length = 10 := by
      rw [List.length_drop]; omega
    rw [List.length_append, hlen]
    have h1 : 10 + [a].length - 10 = 1 := by simp
    rw [h1]
    have h2 : (1 : Nat) ≤ (l.drop (l.length - 10)).length := by omega
    rw [List.drop_append_of_le_length h2, List.drop_drop]
    have h3 : (l ++ [a]).length - 10 = 1 + (l.length - 10) := by
      rw [List.length_append]; simp; omega
    rw [h3]
    have h4 : 1 + (l.length - 10) ≤ l.length := by omega
    rw [List.drop_append_of_le_length h4, Nat.add_comm]

/-- State of the store after a sequence of `createCheckpoint` calls,
relative to a state already holding the trimmed history `base`. -/
theorem foldl_createCheckpoint_spec (calls : List CheckpointCall) :
    ∀ (st : RecoveryEngineState) (base : List Checkpoint) (jobId : String),
      st.checkpoints jobId = keepLastTen base →
      ((calls.foldl
          (fun st call =>
            createCheckpoint st call.jobId call.phase call.progress call.cpId)
          st).checkpoints jobId) =
        keepLastTen (base ++ checkpointsFor jobId calls) := by
  induction calls with
  | nil =>
      intro st base jobId h
      simpa [checkpointsFor]
  | cons call rest ih =>
      intro st base jobId h
      simp only [List.foldl_cons]
      by_cases hc : call.jobId = jobId
      · have hstep :
            (createCheckpoint st call.jobId call.phase call.progress
              call.cpId).checkpoints jobId =
              keepLastTen (base ++ [buildCheckpoint call]) := by
          simp only [createCheckpoint, buildCheckpoint, hc]
          rw [Function.update_same, h, trim_eq_keepLastTen,
            keepLastTen_append_singleton]
        rw [ih _ (base ++ [buildCheckpoint call]) jobId hstep]
        have : checkpointsFor jobId (call :: rest) =
            buildCheckpoint call :: checkpointsFor jobId rest := by
          simp [checkpointsFor, hc]
        rw [this, List.append_assoc]
        simp
      · have hstep :
            (createCheckpoint st call.jobId call.phase call.progress
              call.cpId).checkpoints jobId = keepLastTen base := by
          simp only [createCheckpoint]
          rw [Function.update_noteq (fun hx => hc hx.symm), h]
        rw [ih _ base jobId hstep]
        have : checkpointsFor jobId (call :: rest) =
            checkpointsFor jobId rest := by
          simp [checkpointsFor, hc]
        rw [this]

/-- C7: for every job the checkpoint store holds at most 10 checkpoints
at any time — after any sequence of `createCheckpoint` calls exactly the
most recent 10 checkpoints of that job are retained, and an 11th
checkpoint evicts the oldest one. -/
theorem C7_checkpoint_store_keeps_last_ten :
    (∀ calls jobId, (runCheckpointCalls calls).checkpoints jobId =
        keepLastTen (checkpointsFor jobId calls)) ∧
    (∀ calls jobId,
        ((runCheckpointCalls calls).checkpoints jobId).length ≤ 10) ∧
    (∀ calls jobId, (checkpointsFor jobId calls).length = 11 →
        (runCheckpointCalls calls).checkpoints jobId =
          (checkpointsFor jobId calls).drop 1) := by
  have hmain : ∀ calls jobId,
      (runCheckpointCalls calls).checkpoints jobId =
        keepLastTen (checkpointsFor jobId calls) := by
    intro calls jobId
    have := foldl_createCheckpoint_spec calls initialRecoveryState [] jobId
      (by simp [initialRecoveryState, keepLastTen])
    simpa [runCheckpointCalls] using this
  refine ⟨hmain, ?_, ?_⟩
  · intro calls jobId
    rw [hmain]
    unfold keepLastTen
    rw [List.length_drop]
    omega
  · intro calls jobId h11
    rw [hmain]
    unfold keepLastTen
    rw [h11]

/-- Witness for C7: eleven consecutive checkpoint creations for job
`"j"` leave exactly the checkpoints `cp1 … cp10` — the oldest (`cp0`)
is evicted. -/
theorem C7_checkpoint_store_keeps_last_ten_witness :
    (runCheckpointCalls ((List.range 11).map sampleCall)).checkpoints "j" =
      (checkpointsFor "j" ((List.range 11).map sampleCall)).drop 1 :=
  C7_checkpoint_store_keeps_last_ten.2.2 ((List.range 11).map sampleCall) "j"
    (by decide)

/-! ## Lemmas for rollback (C8) -/

/-- `find?` on a list decomposed around its first satisfying element. -/
theorem find?_decomp {α : Type} (p : α → Bool) (l₁ l₂ : List α) (a : α)
    (h₁ : ∀ x ∈ l₁, p x = false) (ha : p a = true) :
    (l₁ ++ a :: l₂).find? p = some a := by
  induction l₁ with
  | nil => simp [List.find?_cons_of_pos, ha]
  | cons x xs ih =>
      have hx : p x = false := h₁ x (List.mem_cons_self x xs)
      rw [List.cons_append, List.find?_cons_of_neg _ (by simp [hx])]
      exact ih fun y hy => h₁ y (List.mem_cons_of_mem x hy)

/-- `findIdx` on a list decomposed around its first satisfying element. -/
theorem findIdx_decomp {α : Type} (p : α → Bool) (l₁ l₂ : List α) (a : α)
    (h₁ : ∀ x ∈ l₁, p x = false) (ha : p a = true) :
    (l₁ ++ a :: l₂).findIdx p = l₁.length := by
  induction l₁ with
  | nil => simp [List.findIdx_cons, ha]
  | cons x xs ih =>
      have hx : p x = false := h₁ x (List.mem_cons_self x xs)
      simp only [List.cons_append, List.findIdx_cons, hx, cond_false,
        List.length_cons]
      rw [ih fun y hy => h₁ y (List.mem_cons_of_mem x hy)]

/-- C8: a successful `rollbackToCheckpoint` keeps exactly the
checkpoints up to (and including) the restored one, the operation is
idempotent — a second rollback to the same checkpoint returns the very
same store — and a failing rollback instruction fails the whole rollback
leaving the store untouched. -/
theorem C8_rollback_discards_later_checkpoints
    (st : RecoveryEngineState) (jobId cpId : String)
    (instrOk : String → Bool) (cp : Checkpoint) (l₁ l₂ : List Checkpoint)
    (hl : st.checkpoints jobId = l₁ ++ cp :: l₂)
    (hid : cp.id = cpId)
    (hbefore : ∀ c ∈ l₁, (c.id == cpId) = false)
    (hroll : cp.canRollback = true)
    (hinstr : cp.rollbackInstructions.all instrOk = true) :
    (rollbackToCheckpoint st jobId cpId instrOk).2 = true ∧
    (rollbackToCheckpoint st jobId cpId instrOk).1.checkpoints jobId =
      l₁ ++ [cp] ∧
    rollbackToCheckpoint (rollbackToCheckpoint st jobId cpId instrOk).1
        jobId cpId instrOk =
      ((rollbackToCheckpoint st jobId cpId instrOk).1, true) ∧
    (∀ badOk : String → Bool, cp.rollbackInstructions.all badOk = false →
      rollbackToCheckpoint st jobId cpId badOk = (st, false)) := by
  have hp : (cp.id == cpId) = true := by simp [hid]
  have hfind : (l₁ ++ cp :: l₂).find? (fun c => c.id == cpId) = some cp :=
    find?_decomp _ l₁ l₂ cp hbefore hp
  have hidx : (l₁ ++ cp :: l₂).findIdx (fun c => c.id == cpId) = l₁.length :=
    findIdx_decomp _ l₁ l₂ cp hbefore hp
  have htake : (l₁ ++ cp :: l₂).take (l₁.length + 1) = l₁ ++ [cp] := by
    rw [List.take_append]
    simp
  have hres : rollbackToCheckpoint st jobId cpId instrOk =
      ({ st with checkpoints :=
          Function.update st.checkpoints jobId (l₁ ++ [cp]) }, true) := by
    simp only [rollbackToCheckpoint, hl, hfind, hroll, hinstr, hidx, htake,
      Bool.not_true, Bool.false_eq_true, if_false, if_true]
  have hcp1 : (rollbackToCheckpoint st jobId cpId instrOk).1.checkpoints
      jobId = l₁ ++ [cp] := by
    rw [hres]
    exact Function.update_same _ _ _
  refine ⟨by rw [hres], hcp1, ?_, ?_⟩
  · -- second rollback to the same checkpoint: a no-op returning `true`
    set st' := (rollbackToCheckpoint st jobId cpId instrOk).1 with hst'
    have hfind' : (l₁ ++ cp :: ([] : List Checkpoint)).find?
        (fun c => c.id == cpId) = some cp :=
      find?_decomp _ l₁ [] cp hbefore hp
    have hidx' : (l₁ ++ cp :: ([] : List Checkpoint)).findIdx
        (fun c => c.id == cpId) = l₁.length :=
      findIdx_decomp _ l₁ [] cp hbefore hp
    have htake' : (l₁ ++ cp :: ([] : List Checkpoint)).take (l₁.length + 1) =
        l₁ ++ [cp] := by
      rw [List.take_append]
      simp
    have hl' : st'.checkpoints jobId = l₁ ++ [cp] := hcp1
    have hupd : Function.update st'.checkpoints jobId (l₁ ++ [cp]) =
        st'.checkpoints := by
      rw [← hl']
      exact Function.update_eq_self _ _
    simp only [rollbackToCheckpoint, hl', hfind', hroll, hinstr, hidx',
      htake', Bool.not_true, Bool.false_eq_true, if_false, if_true, hupd]
  · intro badOk hbad
    simp only [rollbackToCheckpoint, hl, hfind, hroll, hbad, Bool.not_true,
      Bool.false_eq_true, if_false]

/-- Witness for C8: a concrete three-checkpoint store rolled back to the
middle checkpoint. -/
theorem C8_rollback_discards_later_checkpoints_witness :
    (rollbackToCheckpoint
        (runCheckpointCalls ((List.range 3).map sampleCall)) "j" "cp1"
        (fun _ => true)).1.checkpoints "j" =
      [buildCheckpoint (sampleCall 0), buildCheckpoint (sampleCall 1)] :=
  (C8_rollback_discards_later_checkpoints
    (runCheckpointCalls ((List.range 3).map sampleCall)) "j" "cp1"
    (fun _ => true) (buildCheckpoint (sampleCall 1))
    [buildCheckpoint (sampleCall 0)] [buildCheckpoint (sampleCall 2)]
    (by decide) (by decide) (by decide) (by decide) (by decide)).2.1

/-! ## Behaviour of `handleErrorCore` on single-strategy codes -/

/-- On a `PERMISSION_DENIED` fault the engine either runs
`permission-escalation` once (attempt counter within bounds) or skips it
(counter exhausted); both produce a manual-intervention decision. -/
theorem handleErrorCore_permission_denied (st : RecoveryEngineState)
    (jobId : String) (o : Oracle) (phase phase' sev msg : String)
    (ar ra : Bool) :
    (∃ st', handleErrorCore st jobId
        ⟨phase', sev, "PERMISSION_DENIED", msg, ar, ra⟩ phase o =
      (st', permissionEscalationResult, ["permission-escalation"])) ∨
    (∃ st', handleErrorCore st jobId
        ⟨phase', sev, "PERMISSION_DENIED", msg, ar, ra⟩ phase o =
      (st', allFailedResult, [])) := by
  have happ : findApplicableStrategies "PERMISSION_DENIED" =
      [permissionEscalationStrategy] := by decide
  cases hctx : st.activeRecoveries jobId with
  | none =>
      left
      simp [handleErrorCore, happ, hctx, tryStrategies, executeStrategy,
        permissionEscalationStrategy, permissionEscalationResult]
  | some c =>
      by_cases hn : c.attemptNumber + 1 > 2
      · right
        simp [handleErrorCore, happ, hctx, tryStrategies, executeStrategy,
          permissionEscalationStrategy, hn]
      · left
        simp [handleErrorCore, happ, hctx, tryStrategies, executeStrategy,
          permissionEscalationStrategy, permissionEscalationResult, hn]

/-! ## The graceful-degradation strategy is unreachable (C3) -/

/-- C3: contrary to the claim, `handleError` never returns a `skip`
decision for an `OPTIONAL_COMPONENT_ERROR` or `FEATURE_NOT_SUPPORTED`
fault: the per-episode attempt counter is at least 1 while
`graceful-degradation` registers `maxRetries = 0`, so the only
applicable strategy is always skipped and the engine answers
`manual_intervention` with no strategy executed — even though that
strategy's own executor does signal `skip` with zero retries, exactly as
the claim describes. -/
theorem C3_graceful_degradation_unreachable :
    (∀ (st : RecoveryEngineState) (job : MigrationJob) (o : Oracle)
        (phase phase' sev msg : String) (ar ra : Bool),
      (handleError st job
          ⟨phase', sev, "OPTIONAL_COMPONENT_ERROR", msg, ar, ra⟩
          phase o).2.1 = allFailedResult ∧
      (handleError st job
          ⟨phase', sev, "OPTIONAL_COMPONENT_ERROR", msg, ar, ra⟩
          phase o).2.2 = [] ∧
      (handleError st job
          ⟨phase', sev, "FEATURE_NOT_SUPPORTED", msg, ar, ra⟩
          phase o).2.1 = allFailedResult ∧
      (handleError st job
          ⟨phase', sev, "FEATURE_NOT_SUPPORTED", msg, ar, ra⟩
          phase o).2.2 = []) ∧
    allFailedResult.action = .manual_intervention ∧
    allFailedResult.requiresManualIntervention = true ∧
    (∀ (ctx : RecoveryContext) (st : RecoveryEngineState) (o : Oracle),
      (executeStrategy "graceful-degradation" ctx st o).2.action = .skip ∧
      (executeStrategy "graceful-degradation" ctx st o).2.success = true ∧
      gracefulDegradationStrategy.maxRetries = 0) := by
  have happ1 : findApplicableStrategies "OPTIONAL_COMPONENT_ERROR" =
      [gracefulDegradationStrategy] := by decide
  have happ2 : findApplicableStrategies "FEATURE_NOT_SUPPORTED" =
      [gracefulDegradationStrategy] := by decide
  refine ⟨?_, rfl, rfl, ?_⟩
  · intro st job o phase phase' sev msg ar ra
    cases hctx : st.activeRecoveries job.id with
    | none =>
        refine ⟨?_, ?_, ?_, ?_⟩ <;>
          simp [handleError, handleErrorCore, happ1, happ2, hctx,
            tryStrategies, gracefulDegradationStrategy]
    | some c =>
        refine ⟨?_, ?_, ?_, ?_⟩ <;>
          simp [handleError, handleErrorCore, happ1, happ2, hctx,
            tryStrategies, gracefulDegradationStrategy]
  · intro ctx st o
    exact ⟨rfl, rfl, rfl⟩

/-! ## PERMISSION_DENIED always escalates (C4) -/

/-- C4: every `PERMISSION_DENIED` fault yields a `manual_intervention`
decision (never retry, skip or rollback) with at most one strategy
execution; a phase whose body raises such a fault performs no retry
(no backoff wait), is marked failed, and the job transitions to
`failed`. -/
theorem C4_permission_denied_escalates :
    (∀ (st : RecoveryEngineState) (job : MigrationJob) (o : Oracle)
        (phase phase' sev msg : String) (ar ra : Bool),
      (handleError st job
          ⟨phase', sev, "PERMISSION_DENIED", msg, ar, ra⟩ phase o).2.1.action =
        .manual_intervention ∧
      (handleError st job
          ⟨phase', sev, "PERMISSION_DENIED", msg, ar, ra⟩
          phase o).2.1.requiresManualIntervention = true ∧
      (handleError st job
          ⟨phase', sev, "PERMISSION_DENIED", msg, ar, ra⟩ phase o).2.1.success =
        false ∧
      (handleError st job
          ⟨phase', sev, "PERMISSION_DENIED", msg, ar, ra⟩
          phase o).2.2.length ≤ 1) ∧
    (∀ (recSt : RecoveryEngineState) (mon : MonitoringState)
        (job : MigrationJob) (o : Oracle) (phase msg cpId : String)
        (attempts : Nat → Option String),
      determineErrorCode msg = "PERMISSION_DENIED" →
      attempts 0 = some msg →
      (jobAfterPhaseStep
          (executePhase recSt mon job phase attempts o cpId)).status =
        .failed ∧
      (executePhase recSt mon job phase attempts o cpId).thrown.isSome =
        true ∧
      (executePhase recSt mon job phase attempts o cpId).executed.length ≤ 1 ∧
      (executePhase recSt mon job phase attempts o cpId).delays = []) := by
  constructor
  · intro st job o phase phase' sev msg ar ra
    rcases handleErrorCore_permission_denied st job.id o phase phase' sev msg
        ar ra with ⟨st', hE⟩ | ⟨st', hE⟩ <;>
      simp [handleError, hE, permissionEscalationResult, allFailedResult]
  · intro recSt mon job o phase msg cpId attempts hcode hatt
    have herr : createMigrationError msg phase =
        ⟨phase, determineSeverity msg, "PERMISSION_DENIED", msg,
          isAutoRecoverable msg, false⟩ := by
      simp [createMigrationError, hcode]
    rcases handleErrorCore_permission_denied
        (createCheckpoint recSt job.id phase job.progress cpId) job.id o
        phase phase (determineSeverity msg) msg (isAutoRecoverable msg) false
      with ⟨st', hE⟩ | ⟨st', hE⟩ <;>
    · refine ⟨?_, ?_, ?_, ?_⟩ <;>
        simp [executePhase, executePhaseLoop, hatt, herr, handleError,
          jobAfterPhaseStep, hE, permissionEscalationResult, allFailedResult,
          updatePhaseStatus]

/-- Witness for C4: a concrete `PERMISSION_DENIED` fault in the
`schema_migration` phase of a fresh engine fails the job with a single
recovery attempt and no retry wait. -/
theorem C4_permission_denied_escalates_witness :
    (jobAfterPhaseStep
        (executePhase initialRecoveryState initialMonitoringState
          sampleRunningJob "schema_migration"
          (fun _ => some permissionMessage) sampleOracle "cp0")).status =
      .failed ∧
    (executePhase initialRecoveryState initialMonitoringState
        sampleRunningJob "schema_migration"
        (fun _ => some permissionMessage) sampleOracle "cp0").executed.length ≤
      1 :=
  let h := C4_permission_denied_escalates.2 initialRecoveryState
    initialMonitoringState sampleRunningJob sampleOracle "schema_migration"
    permissionMessage "cp0" (fun _ => some permissionMessage) (by decide) rfl
  ⟨h.1, h.2.2.1⟩



/-! ## Classifier codes and unmatched codes (C10) -/

/-- C10: the keyword classifier only ever returns one of six codes
(falling back to `UNKNOWN_ERROR`), no registered strategy covers
`RESOURCE_NOT_FOUND` or `UNKNOWN_ERROR`, and `handleError` on a fault
carrying either code immediately returns the no-strategy
manual-intervention decision, executing no strategy and leaving the
engine state untouched. -/
theorem C10_classifier_codes_and_unmatched_codes :
    (∀ msg, determineErrorCode msg ∈
      (["CONNECTION_TIMEOUT", "PERMISSION_DENIED", "RESOURCE_CONFLICT",
        "RESOURCE_NOT_FOUND", "NETWORK_ERROR", "UNKNOWN_ERROR"] :
        List String)) ∧
    findApplicableStrategies "RESOURCE_NOT_FOUND" = [] ∧
    findApplicableStrategies "UNKNOWN_ERROR" = [] ∧
    (∀ (st : RecoveryEngineState) (job : MigrationJob) (o : Oracle)
        (phase phase' sev msg : String) (ar ra : Bool),
      handleError st job ⟨phase', sev, "RESOURCE_NOT_FOUND", msg, ar, ra⟩
          phase o = (st, noStrategyResult, []) ∧
      handleError st job ⟨phase', sev, "UNKNOWN_ERROR", msg, ar, ra⟩
          phase o = (st, noStrategyResult, [])) ∧
    noStrategyResult.action = .manual_intervention ∧
    noStrategyResult.requiresManualIntervention = true := by
  have h1 : findApplicableStrategies "RESOURCE_NOT_FOUND" = [] := by decide
  have h2 : findApplicableStrategies "UNKNOWN_ERROR" = [] := by decide
  refine ⟨?_, h1, h2, ?_, rfl, rfl⟩
  · intro msg
    unfold determineErrorCode
    repeat' split
    all_goals simp
  · intro st job o phase phase' sev msg ar ra
    constructor <;>
      simp [handleError, handleErrorCore, h1, h2]

/-! ## Pattern-detected alerts fire on every occurrence past 5 (C9) -/

/-- State of the monitoring system after `n + 1` identical
high-severity faults: the pattern frequency is `n + 1`, the fault log
holds `n + 1` copies, and one `pattern_detected` alert exists per
occurrence from the 5th on. -/
theorem recordRepeated_high_invariant (code ph msg : String) (ar ra : Bool)
    (job : MigrationJob) :
    ∀ n : Nat,
      (recordRepeated ⟨ph, "high", code, msg, ar, ra⟩ job (n + 1)).patterns
          (code ++ "_" ++ ph) =
        some ⟨code ++ "_" ++ ph, n + 1, "high"⟩ ∧
      (recordRepeated ⟨ph, "high", code, msg, ar, ra⟩ job (n + 1)).errors =
        List.replicate (n + 1) ⟨ph, "high", code, msg, ar, ra⟩ ∧
      patternAlertCount (recordRepeated ⟨ph, "high", code, msg, ar, ra⟩
        job (n + 1)) = (n + 1) - 4 := by
  set e : MigrationError := ⟨ph, "high", code, msg, ar, ra⟩ with he
  have hfilt : ∀ (l : List MigrationError), (∀ x ∈ l, x.severity = "high") →
      l.filter (fun x => x.severity == "critical") = [] := by
    intro l hl
    induction l with
    | nil => rfl
    | cons x xs ih =>
        have hx : x.severity = "high" := hl x (List.mem_cons_self x xs)
        rw [List.filter_cons]
        have : (x.severity == "critical") = false := by
          rw [hx]; decide
        rw [this]
        simp only [Bool.false_eq_true, if_false]
        exact ih fun y hy => hl y (List.mem_cons_of_mem x hy)
  have hsev : ¬ (("high" : String) = "critical") := by decide
  have hcrit : ∀ k : Nat, (List.replicate k e ++ [e]).filter
      (fun x => x.severity == "critical") = [] := by
    intro k
    apply hfilt
    intro x hx
    rcases List.mem_append.1 hx with hx | hx
    · rw [List.eq_of_mem_replicate hx, he]
    · simp at hx
      rw [hx, he]
  intro n
  induction n with
  | zero =>
      have h1 : recordRepeated e job 1 =
          recordError initialMonitoringState e job := by
        simp [recordRepeated]
      rw [h1]
      unfold recordError checkForAlerts updateErrorPatterns
      simp only [show e.error_code = code from rfl,
        show e.phase = ph from rfl, show e.severity = "high" from rfl,
        initialMonitoringState, hsev, if_false]
      rw [if_neg (show ¬ ((0 : Nat) + 1 ≥ 5 ∧ True)
        from fun h => by have := h.1; omega)]
      have hc0 : (([] : List MigrationError) ++ [e]).filter
          (fun x => x.severity == "critical") = [] := hcrit 0
      dsimp only
      rw [hc0]
      rw [if_neg (show ¬ (([] : List MigrationError).length ≥
        criticalErrorThreshold) from by simp [criticalErrorThreshold])]
      refine ⟨by simp [Function.update_same], by simp, ?_⟩
      simp [patternAlertCount]
  | succ n ih =>
      obtain ⟨ihp, ihe, ihc⟩ := ih
      have hstep : recordRepeated e job (n + 1 + 1) =
          recordError (recordRepeated e job (n + 1)) e job := by
        simp [recordRepeated, List.replicate_succ', List.foldl_append]
      rw [hstep]
      unfold recordError checkForAlerts updateErrorPatterns
      simp only [show e.error_code = code from rfl,
        show e.phase = ph from rfl, show e.severity = "high" from rfl,
        ihp, ihe, hsev, if_false]
      by_cases h5 : n + 1 + 1 ≥ 5
      · rw [if_pos (show n + 1 + 1 ≥ 5 ∧ True from ⟨h5, trivial⟩)]
        dsimp only
        rw [hcrit (n + 1)]
        rw [if_neg (show ¬ (([] : List MigrationError).length ≥
          criticalErrorThreshold) from by simp [criticalErrorThreshold])]
        refine ⟨by simp [Function.update_same],
          by simp [List.replicate_succ'], ?_⟩
        have ihc' : (List.filter (fun a => a.type == "pattern_detected")
            (recordRepeated e job (n + 1)).alerts).length = n + 1 - 4 := by
          simpa [patternAlertCount] using ihc
        simp [patternAlertCount, List.filter_append, ihc']
        omega
      · rw [if_neg (show ¬ (n + 1 + 1 ≥ 5 ∧ True) from fun h => h5 h.1)]
        dsimp only
        rw [hcrit (n + 1)]
        rw [if_neg (show ¬ (([] : List MigrationError).length ≥
          criticalErrorThreshold) from by simp [criticalErrorThreshold])]
        refine ⟨by simp [Function.update_same],
          by simp [List.replicate_succ'], ?_⟩
        have ihc' : (List.filter (fun a => a.type == "pattern_detected")
            (recordRepeated e job (n + 1)).alerts).length = n + 1 - 4 := by
          simpa [patternAlertCount] using ihc
        simp [patternAlertCount, ihc']
        omega

/-- C9 (amended): with the pattern's recorded severity high, every
occurrence from the 5th onward raises a `pattern_detected` alert — after
`n` identical faults there are `n - 4` such alerts, so the 5th raises
one and the 6th raises a second one. -/
theorem C9_pattern_alert_every_occurrence (code ph msg : String)
    (ar ra : Bool) (job : MigrationJob) (n : Nat) :
    patternAlertCount
      (recordRepeated ⟨ph, "high", code, msg, ar, ra⟩ job n) = n - 4 := by
  cases n with
  | zero => simp [recordRepeated, patternAlertCount, initialMonitoringState]
  | succ n => exact (recordRepeated_high_invariant code ph msg ar ra job n).2.2

/-- Counterexample for C9: five identical high-severity
`CONNECTION_TIMEOUT` faults in `data_migration` raise one
pattern-detected alert, but the sixth raises a second alert for the same
crossing — the alert is not deduplicated. -/
theorem C9_pattern_alert_counterexample :
    patternAlertCount
        (recordRepeated sampleHighError sampleRunningJob 5) = 1 ∧
    patternAlertCount
        (recordRepeated sampleHighError sampleRunningJob 6) = 2 := by
  constructor <;> rfl

/-! ## Synchronous rejections of `startMigration` (C6) -/

/-- An out-of-bounds `parallel_threads` makes the configuration
validator report failure, whatever the rest of the configuration is. -/
theorem validateMigrationConfig_invalid_threads
    (c : MigrationConfiguration)
    (h : c.parallel_threads < 1 ∨ c.parallel_threads > 20) :
    (validateMigrationConfig c).1 = false := by
  have hcond : (if c.parallel_threads = 0 ∨ c.parallel_threads < 1 ∨
      c.parallel_threads > 20 then
      ["parallel_threads must be between 1 and 20"] else ([] : List String)) =
      ["parallel_threads must be between 1 and 20"] :=
    if_pos (by omega)
  unfold validateMigrationConfig
  dsimp only
  rw [hcond, List.isEmpty_eq_false]
  intro hnil
  simp at hnil

/-- C6: `startMigration` rejects synchronously, registering no job and
leaving every registered job unchanged, both on an invalid configuration
(`parallel_threads = 25`, outside the bound 1–20) and when the
organization already has 5 (or more) jobs with status running —
regardless of everything else in the request. -/
theorem C6_start_migration_synchronous_rejections :
    (∀ (opts : MigrationJobOptions) (jobId : String)
        (jobs : List MigrationJob),
      opts.configuration.parallel_threads = 25 →
      (startMigration opts jobId jobs).1 = jobs ∧
      (startMigration opts jobId jobs).2.isOk = false) ∧
    (∀ (opts : MigrationJobOptions) (jobId : String)
        (jobs : List MigrationJob),
      maxConcurrentMigrations ≤ (jobs.filter fun job =>
        job.status == JobStatus.running &&
        job.organization_id == opts.organizationId).length →
      (startMigration opts jobId jobs).1 = jobs ∧
      (startMigration opts jobId jobs).2.isOk = false) := by
  constructor
  · intro opts jobId jobs ht
    have hval : (validateMigrationConfig opts.configuration).1 = false :=
      validateMigrationConfig_invalid_threads opts.configuration (by omega)
    constructor <;> simp [startMigration, hval, Except.isOk, Except.toBool]
  · intro opts jobId jobs hcount
    have hge : (jobs.filter fun job =>
        job.status == JobStatus.running &&
        job.organization_id == opts.organizationId).length ≥
        maxConcurrentMigrations := hcount
    by_cases h1 : (validateMigrationConfig opts.configuration).1 = true
    · by_cases h2 : isValidProjectName opts.targetProjectName = true
      · by_cases h3 : isValidOrganizationId opts.organizationId = true
        · constructor <;>
            simp [startMigration, h1, h2, h3, hge, Except.isOk, Except.toBool]
        · constructor <;>
            simp [startMigration, h1, h2, h3, Except.isOk, Except.toBool]
      · constructor <;>
          simp [startMigration, h1, h2, Except.isOk, Except.toBool]
    · constructor <;>
        simp [startMigration, h1, Except.isOk, Except.toBool]

/-- Witness for C6: the concrete 25-thread submission is rejected on an
empty registry, and a valid submission is rejected when 5 running jobs
of the same organization are registered — which stay untouched. -/
theorem C6_start_migration_synchronous_rejections_witness :
    (startMigration sampleOptsBadThreads "j9" []).1 = [] ∧
    (startMigration sampleOptsBadThreads "j9" []).2.isOk = false ∧
    (startMigration sampleOpts "j9" (List.replicate 5 sampleRunningJob)).1 =
      List.replicate 5 sampleRunningJob ∧
    (startMigration sampleOpts "j9"
        (List.replicate 5 sampleRunningJob)).2.isOk = false :=
  ⟨(C6_start_migration_synchronous_rejections.1 sampleOptsBadThreads "j9" []
      rfl).1,
   (C6_start_migration_synchronous_rejections.1 sampleOptsBadThreads "j9" []
      rfl).2,
   (C6_start_migration_synchronous_rejections.2 sampleOpts "j9"
      (List.replicate 5 sampleRunningJob) (by decide)).1,
   (C6_start_migration_synchronous_rejections.2 sampleOpts "j9"
      (List.replicate 5 sampleRunningJob) (by decide)).2⟩

/-! ## CONNECTION_TIMEOUT retries (C5) -/

/-- On a fresh recovery episode, a `CONNECTION_TIMEOUT` fault always
produces a retry decision with a 1000 ms delay: the context is created
with attempt number 1, `connection-retry` computes
`min (1000·2⁰, 30000) = 1000`, and the context is deleted again on
success — so the episode is fresh again for the next fault and the
exponential backoff never advances. -/
theorem handleErrorCore_ct_fresh (st : RecoveryEngineState)
    (jobId : String) (o : Oracle) (phase phase' sev msg : String)
    (ar ra : Bool) (hfresh : st.activeRecoveries jobId = none) :
    handleErrorCore st jobId ⟨phase', sev, "CONNECTION_TIMEOUT", msg, ar, ra⟩
        phase o =
      ({ st with activeRecoveries :=
          Function.update st.activeRecoveries jobId none },
       { success := true, action := .retry
         message := "Retrying after connection error"
         delayBeforeRetry := some 1000 }, ["connection-retry"]) := by
  have happ : findApplicableStrategies "CONNECTION_TIMEOUT" =
      [connectionRetryStrategy] := by decide
  have hdelay : calculateBackoffDelay connectionRetryStrategy 1 = 1000 := by
    decide
  have hmax : connectionRetryStrategy.maxRetries = 5 := rfl
  have hsid : connectionRetryStrategy.id = "connection-retry" := rfl
  simp [handleErrorCore, happ, hfresh, tryStrategies, executeStrategy,
    hmax, hsid, hdelay, Function.update_idem]

/-- One failing loop iteration with retry budget left: the fault is
logged, recovery decides retry with a 1000 ms wait, and the loop
re-enters with the counter advanced and the episode fresh again. -/
theorem executePhaseLoop_ct_step (phase msg : String)
    (attempts : Nat → Option String) (o : Oracle) (fuel rc idx : Nat)
    (recSt : RecoveryEngineState) (mon : MonitoringState)
    (job : MigrationJob) (delays : List Nat) (executed : List String)
    (hatt : attempts idx = some msg)
    (hcode : determineErrorCode msg = "CONNECTION_TIMEOUT")
    (hfresh : recSt.activeRecoveries job.id = none)
    (hrc : rc < 3) :
    executePhaseLoop phase attempts o (fuel + 1) rc idx recSt mon job
        delays executed =
      executePhaseLoop phase attempts o fuel (rc + 1) (idx + 1)
        { recSt with activeRecoveries :=
            Function.update recSt.activeRecoveries job.id none }
        (recordError mon (createMigrationError msg phase)
          (updatePhaseStatus job phase .running))
        { updatePhaseStatus job phase .running with
            error_log := job.error_log ++ [createMigrationError msg phase] }
        (delays ++ [1000]) (executed ++ ["connection-retry"]) := by
  have herr : createMigrationError msg phase =
      ⟨phase, determineSeverity msg, "CONNECTION_TIMEOUT", msg,
        isAutoRecoverable msg, false⟩ := by
    simp [createMigrationError, hcode]
  have hE := handleErrorCore_ct_fresh recSt job.id o phase phase
    (determineSeverity msg) msg (isAutoRecoverable msg) false hfresh
  rw [← herr] at hE
  conv_lhs => rw [executePhaseLoop]
  rw [hatt]
  simp only [handleError, updatePhaseStatus, hE]
  rw [if_pos hrc]
  simp [hE, updatePhaseStatus]

/-- The final failing iteration (retry budget exhausted): the fault is
logged once more, the phase is marked failed and the error re-thrown. -/
theorem executePhaseLoop_ct_final (phase msg : String)
    (attempts : Nat → Option String) (o : Oracle) (fuel idx : Nat)
    (recSt : RecoveryEngineState) (mon : MonitoringState)
    (job : MigrationJob) (delays : List Nat) (executed : List String)
    (hatt : attempts idx = some msg) :
    (executePhaseLoop phase attempts o (fuel + 1) 3 idx recSt mon job
        delays executed).thrown = some msg ∧
    (executePhaseLoop phase attempts o (fuel + 1) 3 idx recSt mon job
        delays executed).delays = delays ∧
    (executePhaseLoop phase attempts o (fuel + 1) 3 idx recSt mon job
        delays executed).executed = executed ∧
    (executePhaseLoop phase attempts o (fuel + 1) 3 idx recSt mon job
        delays executed).job.error_log =
      job.error_log ++ [createMigrationError msg phase] := by
  refine ⟨?_, ?_, ?_, ?_⟩ <;>
    simp [executePhaseLoop, hatt, updatePhaseStatus]

/-- C5 (amended): a phase whose body keeps timing out is retried exactly
3 times — but with a constant 1000 ms delay before each retry, not a
strictly increasing exponential one, because the recovery context is
deleted after every successful retry decision, resetting the attempt
counter — and after the ceiling the job is failed with all four faults
(the final one included) in `error_log`. -/
theorem C5_connection_timeout_constant_delays
    (recSt : RecoveryEngineState) (mon : MonitoringState)
    (job : MigrationJob) (o : Oracle) (phase msg cpId : String)
    (hcode : determineErrorCode msg = "CONNECTION_TIMEOUT")
    (hfresh : recSt.activeRecoveries job.id = none) :
    (executePhase recSt mon job phase (fun _ => some msg) o cpId).delays =
      [1000, 1000, 1000] ∧
    (executePhase recSt mon job phase (fun _ => some msg) o cpId).thrown =
      some msg ∧
    (jobAfterPhaseStep
        (executePhase recSt mon job phase (fun _ => some msg) o
          cpId)).status = .failed ∧
    (executePhase recSt mon job phase (fun _ => some msg) o
        cpId).job.error_log =
      job.error_log ++
        List.replicate 4 (createMigrationError msg phase) ∧
    createMigrationError msg phase ∈
      (executePhase recSt mon job phase (fun _ => some msg) o
        cpId).job.error_log := by
  have hid : ∀ (j : MigrationJob) (e : MigrationError),
      ({ updatePhaseStatus j phase .running with
          error_log := j.error_log ++ [e] } : MigrationJob).id = j.id := by
    intro j e
    simp [updatePhaseStatus]
  have hcp : (createCheckpoint recSt job.id phase job.progress
      cpId).activeRecoveries job.id = none := by
    simpa [createCheckpoint] using hfresh
  have hupd : ∀ st : RecoveryEngineState,
      ({ st with activeRecoveries :=
          Function.update st.activeRecoveries job.id none } :
        RecoveryEngineState).activeRecoveries job.id = none :=
    fun st => Function.update_same _ _ _
  have hrun : executePhase recSt mon job phase (fun _ => some msg) o cpId =
      executePhaseLoop phase (fun _ => some msg) o 4 0 0
        (createCheckpoint recSt job.id phase job.progress cpId) mon job
        [] [] := rfl
  rw [hrun]
  rw [executePhaseLoop_ct_step phase msg _ o 3 0 0 _ mon job [] [] rfl hcode
    hcp (by omega)]
  rw [executePhaseLoop_ct_step phase msg _ o 2 1 1 _ _ _ _ _ rfl hcode
    (by rw [hid]; exact hupd _) (by omega)]
  rw [executePhaseLoop_ct_step phase msg _ o 1 2 2 _ _ _ _ _ rfl hcode
    (by rw [hid]; exact hupd _) (by omega)]
  obtain ⟨hthrown, hdelays, _hexec, hlog⟩ :=
    executePhaseLoop_ct_final phase msg (fun _ => some msg) o 0 3 _ _ _ _ _
      rfl
  refine ⟨?_, ?_, ?_, ?_, ?_⟩
  · rw [hdelays]
    rfl
  · exact hthrown
  · simp only [jobAfterPhaseStep, hthrown]
  · rw [hlog]
    simp [updatePhaseStatus, List.replicate_succ, List.append_assoc]
  · rw [hlog]
    simp

/-- Counterexample for C5: concretely, three retries of an
always-timing-out `schema_migration` phase wait 1000 ms each time — the
delays are not strictly increasing. -/
theorem C5_connection_timeout_counterexample :
    (executePhase initialRecoveryState initialMonitoringState
        sampleRunningJob "schema_migration" (fun _ => some timeoutMessage)
        sampleOracle "cp0").delays = [1000, 1000, 1000] ∧
    ¬ List.Chain' (· < ·)
        (executePhase initialRecoveryState initialMonitoringState
          sampleRunningJob "schema_migration" (fun _ => some timeoutMessage)
          sampleOracle "cp0").delays := by
  have h : (executePhase initialRecoveryState initialMonitoringState
      sampleRunningJob "schema_migration" (fun _ => some timeoutMessage)
      sampleOracle "cp0").delays = [1000, 1000, 1000] := by rfl
  refine ⟨h, ?_⟩
  rw [h]
  intro hchain
  rw [List.chain'_cons] at hchain
  exact absurd hchain.1 (lt_irrefl _)

/-- Witness for C5 (amended): the concrete always-timing-out phase of
the sample job. -/
theorem C5_connection_timeout_constant_delays_witness :
    (executePhase initialRecoveryState initialMonitoringState
        sampleRunningJob "schema_migration" (fun _ => some timeoutMessage)
        sampleOracle "cp0").delays = [1000, 1000, 1000] ∧
    (jobAfterPhaseStep
        (executePhase initialRecoveryState initialMonitoringState
          sampleRunningJob "schema_migration"
          (fun _ => some timeoutMessage) sampleOracle "cp0")).status =
      .failed :=
  let h := C5_connection_timeout_constant_delays initialRecoveryState
    initialMonitoringState sampleRunningJob sampleOracle "schema_migration"
    timeoutMessage "cp0" (by decide) rfl
  ⟨h.1, h.2.2.1⟩

/-! ## Cancellation semantics (C1) -/

/-- A run whose action list ends with the completion block always ends
with status `completed`, whatever state the job is in when the actions
are applied. -/
theorem runActions_append_complete (j : MigrationJob)
    (l : List EngineAction) :
    (runActions j (l ++ [.complete])).status = .completed := by
  simp [runActions, List.foldl_append, applyAction]

/-- C1 (amended): `cancelMigration` is rejected exactly for `completed`
and `failed` jobs — an already-`cancelled` job may be "cancelled" again
— and a permitted cancel sets status `cancelled` and zeroes the overall
percentage; but the execution loop never consults the cancellation flag:
resuming the remaining engine actions from any job state (a freshly
cancelled one included) still runs every remaining phase and finally
overwrites the status with `completed`. -/
theorem C1_cancel_not_checked_between_phases :
    (∀ job : MigrationJob, (cancelMigration job).isOk = true ↔
      (job.status ≠ .completed ∧ job.status ≠ .failed)) ∧
    (∀ (job j' : MigrationJob), cancelMigration job = .ok j' →
      j'.status = .cancelled ∧ j'.progress.overall_percentage = 0) ∧
    (∀ job : MigrationJob,
      job.status = .completed ∨ job.status = .failed →
      cancelMigration job =
        .error "Cannot cancel completed or failed migration") ∧
    (∀ (c : MigrationConfiguration) (b f k : Nat) (job : MigrationJob),
      k ≤ (runUpdates c b f).length + 1 →
      (runActions job ((engineActions c b f).drop k)).status =
        .completed) := by
  refine ⟨?_, ?_, ?_, ?_⟩
  · intro job
    unfold cancelMigration
    split
    · rename_i h
      simp [Except.isOk, Except.toBool]
      intro hc
      rcases h with h | h
      · exact absurd h hc
      · exact h
    · rename_i h
      push_neg at h
      simp [Except.isOk, Except.toBool, h.1, h.2]
  · intro job j' h
    unfold cancelMigration at h
    split at h
    · cases h
    · cases h
      exact ⟨rfl, rfl⟩
  · intro job h
    unfold cancelMigration
    rw [if_pos h]
  · intro c b f k job hk
    have hacts : engineActions c b f =
        (EngineAction.setRunning ::
          (runUpdates c b f).map fun u => .setPct u.1 u.2) ++
          [.complete] := by
      simp [engineActions]
    have hlen : k ≤ (EngineAction.setRunning ::
        (runUpdates c b f).map fun u => .setPct u.1 u.2).length := by
      simp
      omega
    rw [hacts, List.drop_append_of_le_length hlen,
      runActions_append_complete]

/-- Witness for C1 (amended): a pending job may be cancelled, a
completed one may not, and resuming the sample run after three actions
— regardless of an intervening cancellation — ends `completed`. -/
theorem C1_cancel_not_checked_between_phases_witness :
    cancelMigration { newJob sampleOpts "j1" with status := .completed } =
      .error "Cannot cancel completed or failed migration" ∧
    (runActions
        { newJob sampleOpts "j1" with
            status := .cancelled
            progress := { (newJob sampleOpts "j1").progress with
              overall_percentage := 0 } }
        ((engineActions sampleCfg 1 1).drop 3)).status = .completed :=
  ⟨C1_cancel_not_checked_between_phases.2.2.1 _ (Or.inl rfl),
   C1_cancel_not_checked_between_phases.2.2.2 sampleCfg 1 1 3 _ (by decide)⟩

/-- Counterexample for C1: cancelling an already-cancelled job is not
rejected (the guard names only `completed` and `failed`), and a job
cancelled after the third engine mutation of a fault-free full-clone run
still ends the run with status `completed`, not `cancelled`. -/
theorem C1_cancel_counterexample :
    (cancelMigration { newJob sampleOpts "j1" with status := .cancelled }).isOk
        = true ∧
    ((cancelMigration (runActions (newJob sampleOpts "j1")
        ((engineActions sampleCfg 1 1).take 3))).map
      (fun jc => (runActions jc
        ((engineActions sampleCfg 1 1).drop 3)).status)) =
      .ok .completed := by
  constructor
  · rfl
  · rfl

/-! ## Bounded non-decreasing chains of percentages (for C2) -/

/-- The empty chain. -/
theorem bchain_nil (lo hi : ℚ) (h : lo ≤ hi) : BChain lo hi [] :=
  ⟨List.chain'_nil, by simp, h⟩

/-- A singleton chain. -/
theorem bchain_singleton (lo x hi : ℚ) (h1 : lo ≤ x) (h2 : x ≤ hi) :
    BChain lo hi [x] := by
  refine ⟨List.chain'_singleton x, ?_, le_trans h1 h2⟩
  intro y hy
  rw [List.mem_singleton] at hy
  subst hy
  exact ⟨h1, h2⟩

/-- A two-element chain. -/
theorem bchain_pair (lo x y hi : ℚ) (h1 : lo ≤ x) (h2 : x ≤ y)
    (h3 : y ≤ hi) : BChain lo hi [x, y] := by
  refine ⟨List.chain'_cons.2 ⟨h2, List.chain'_singleton y⟩, ?_,
    le_trans h1 (le_trans h2 h3)⟩
  intro z hz
  rcases List.mem_cons.1 hz with hz | hz
  · subst hz
    exact ⟨h1, le_trans h2 h3⟩
  · rw [List.mem_singleton] at hz
    subst hz
    exact ⟨le_trans h1 h2, h3⟩

/-- Interval widening. -/
theorem bchain_mono {lo hi lo' hi' : ℚ} {l : List ℚ} (h : BChain lo hi l)
    (h1 : lo' ≤ lo) (h2 : hi ≤ hi') : BChain lo' hi' l :=
  ⟨h.1,
   fun x hx => ⟨le_trans h1 (h.2.1 x hx).1, le_trans (h.2.1 x hx).2 h2⟩,
   le_trans h1 (le_trans h.2.2 h2)⟩

/-- Chains over adjacent intervals concatenate. -/
theorem bchain_append {lo m hi : ℚ} {l₁ l₂ : List ℚ}
    (h1 : BChain lo m l₁) (h2 : BChain m hi l₂) :
    BChain lo hi (l₁ ++ l₂) := by
  refine ⟨?_, ?_, le_trans h1.2.2 h2.2.2⟩
  · rw [List.chain'_append]
    refine ⟨h1.1, h2.1, ?_⟩
    intro x hx y hy
    have hxm : x ≤ m :=
      (h1.2.1 x (List.mem_of_getLast?_eq_some hx)).2
    have hmy : m ≤ y := (h2.2.1 y (List.mem_of_mem_head? hy)).1
    exact le_trans hxm hmy
  · intro x hx
    rcases List.mem_append.1 hx with hx | hx
    · exact ⟨(h1.2.1 x hx).1, le_trans (h1.2.1 x hx).2 h2.2.2⟩
    · exact ⟨le_trans h1.2.2 (h2.2.1 x hx).1, (h2.2.1 x hx).2⟩

/-- Prepending the lower bound preserves the chain. -/
theorem bchain_cons {a hi : ℚ} {l : List ℚ} (h : BChain a hi l) :
    BChain a hi (a :: l) := by
  refine ⟨?_, ?_, h.2.2⟩
  · rw [List.chain'_cons']
    exact ⟨fun y hy => (h.2.1 y (List.mem_of_mem_head? hy)).1, h.1⟩
  · intro x hx
    rcases List.mem_cons.1 hx with hx | hx
    · subst hx
      exact ⟨le_refl _, h.2.2⟩
    · exact h.2.1 x hx

/-- A pointwise-monotone, bounded function over `range n` yields a
bounded chain. -/
theorem bchain_mapRange (g : ℕ → ℚ) (n : ℕ) (lo hi : ℚ)
    (hmono : ∀ i, i + 1 < n → g i ≤ g (i + 1))
    (hlo : ∀ i, i < n → lo ≤ g i) (hhi : ∀ i, i < n → g i ≤ hi)
    (hlh : lo ≤ hi) : BChain lo hi ((List.range n).map g) := by
  refine ⟨?_, ?_, hlh⟩
  · rw [List.chain'_map]
    cases n with
    | zero => simp
    | succ m =>
        rw [List.chain'_range_succ]
        intro i hi'
        exact hmono i (by omega)
  · intro x hx
    rw [List.mem_map] at hx
    obtain ⟨i, hi', rfl⟩ := hx
    rw [List.mem_range] at hi'
    exact ⟨hlo i hi', hhi i hi'⟩

/-- The per-item loop updates of the storage / edge-functions phases
form a bounded non-decreasing chain over their percentage band. -/
theorem bchain_loopUpdates (base width : ℚ) (n : ℕ) (hw : 0 ≤ width) :
    BChain base (base + width) (loopUpdates base width n) := by
  unfold loopUpdates
  apply bchain_mapRange _ _ _ _ ?_ ?_ ?_ (le_add_of_nonneg_right hw)
  · intro i hi
    have hn : (0 : ℚ) < n := by
      have hn' : 0 < n := by omega
      exact_mod_cast hn'
    apply add_le_add_left
    apply mul_le_mul_of_nonneg_right _ hw
    apply (div_le_div_iff_of_pos_right hn).mpr
    push_cast
    linarith
  · intro i hi
    apply le_add_of_nonneg_right
    apply mul_nonneg _ hw
    apply div_nonneg
    · positivity
    · positivity
  · intro i hi
    have hn : (0 : ℚ) < n := by
      have hn' : 0 < n := by omega
      exact_mod_cast hn'
    apply add_le_add_left
    have h1 : ((i : ℚ) + 1) / n ≤ 1 := by
      rw [div_le_one hn]
      have : i + 1 ≤ n := by omega
      exact_mod_cast this
    calc ((i : ℚ) + 1) / n * width ≤ 1 * width :=
          mul_le_mul_of_nonneg_right h1 hw
      _ = width := one_mul _

/-- The data-migration updates form a bounded non-decreasing chain over
the 30–60 band. -/
theorem bchain_dataUpdates : BChain 30 60 dataUpdates := by
  unfold dataUpdates
  have hmapr : BChain 35 60
      ((List.range 11).map fun (k : Nat) =>
        35 + (10 * (k : ℚ)) * (1 / 4)) := by
    apply bchain_mapRange _ _ _ _ ?_ ?_ ?_ (by norm_num)
    · intro i hi
      push_cast
      linarith
    · intro i hi
      have h0 : (0 : ℚ) ≤ i := by positivity
      linarith
    · intro i hi
      have h10 : (i : ℚ) ≤ 10 := by
        have hle : i ≤ 10 := by omega
        exact_mod_cast hle
      linarith
  exact bchain_mono (bchain_cons hmapr) (by norm_num) le_rfl

/-- The percentage components of every `updateProgress` call of a
fault-free run form a bounded non-decreasing chain from 5 to 100. -/
theorem bchain_runUpdates (c : MigrationConfiguration) (b f : ℕ) :
    BChain 5 100 ((runUpdates c b f).map Prod.snd) := by
  unfold runUpdates
  simp only [List.map_append, apply_ite (List.map (@Prod.snd String ℚ)),
    List.map_cons, List.map_nil, List.map_map, List.append_assoc]
  have hcomp : ∀ (ph : String) (l : List ℚ),
      List.map (Prod.snd ∘ fun x => (ph, x)) l = l := by
    intro ph l
    simp [Function.comp]
  simp only [hcomp]
  have hstorage : BChain 60 70
      (if c.include_storage then 60 :: loopUpdates 60 10 b else []) := by
    split
    · have h := bchain_loopUpdates 60 10 b (by norm_num)
      norm_num at h
      exact bchain_cons h
    · exact bchain_nil 60 70 (by norm_num)
  have hedge : BChain 75 80
      (if c.include_edge_functions then 75 :: loopUpdates 75 5 f
        else []) := by
    split
    · have h := bchain_loopUpdates 75 5 f (by norm_num)
      norm_num at h
      exact bchain_cons h
    · exact bchain_nil 75 80 (by norm_num)
  have hdata : BChain 30 60
      (if c.clone_type ≠ "schema_only" then dataUpdates else []) := by
    split
    · exact bchain_dataUpdates
    · exact bchain_nil 30 60 (by norm_num)
  refine bchain_append (bchain_pair 5 5 10 10 le_rfl (by norm_num) le_rfl) ?_
  refine bchain_append
    (bchain_pair 10 15 30 30 (by norm_num) (by norm_num) le_rfl) ?_
  refine bchain_append hdata ?_
  refine bchain_append hstorage ?_
  refine bchain_append
    (bchain_pair 70 70 75 75 le_rfl (by norm_num) le_rfl) ?_
  refine bchain_append hedge ?_
  refine bchain_append
    (bchain_pair 80 80 85 85 le_rfl (by norm_num) le_rfl) ?_
  refine bchain_append
    (bchain_pair 85 85 90 90 le_rfl (by norm_num) le_rfl) ?_
  refine bchain_append
    (bchain_pair 90 90 95 95 le_rfl (by norm_num) le_rfl) ?_
  exact bchain_pair 95 95 100 100 le_rfl (by norm_num) le_rfl

/-! ## The state trace of a fault-free run (C2) -/

/-- `runStates` unfolds one action at a time. -/
theorem runStates_cons (j : MigrationJob) (a : EngineAction)
    (l : List EngineAction) :
    runStates j (a :: l) =
      (j.status, j.progress.overall_percentage) ::
        runStates (applyAction j a) l := by
  simp [runStates, List.scanl_cons]

/-- The trace of the per-phase updates followed by the completion block,
from any running job. -/
theorem runStates_inner (ps : List (String × ℚ)) :
    ∀ j : MigrationJob, j.status = .running →
      runStates j
          ((ps.map fun u => EngineAction.setPct u.1 u.2) ++ [.complete]) =
        (JobStatus.running, j.progress.overall_percentage) ::
          ((ps.map fun u => (JobStatus.running, u.2)) ++
            [(.completed, 100)]) := by
  induction ps with
  | nil =>
      intro j hj
      simp [runStates, List.scanl_cons, List.scanl_nil, applyAction, hj]
  | cons u ps ih =>
      intro j hj
      rw [List.map_cons, List.cons_append, runStates_cons, hj]
      rw [ih (applyAction j (.setPct u.1 u.2)) (by simp [applyAction, hj])]
      simp [applyAction]

/-- Shape of the full fault-free state trace. -/
theorem migrationStates_shape (opts : MigrationJobOptions) (jobId : String)
    (b f : ℕ) :
    migrationStates opts jobId b f =
      (JobStatus.pending, 0) :: (JobStatus.running, 0) ::
        (((runUpdates opts.configuration b f).map
          fun u => (JobStatus.running, u.2)) ++ [(.completed, 100)]) := by
  unfold migrationStates engineActions
  rw [show EngineAction.setRunning ::
      ((runUpdates opts.configuration b f).map
        fun u => EngineAction.setPct u.1 u.2) ++ [EngineAction.complete] =
      EngineAction.setRunning ::
      (((runUpdates opts.configuration b f).map
        fun u => EngineAction.setPct u.1 u.2) ++ [EngineAction.complete])
    from rfl]
  rw [runStates_cons]
  rw [runStates_inner _ _ (by simp [applyAction])]
  simp [applyAction, newJob, initializeProgress]

/-- C2 (amended): within a fault-free run the overall percentage is
non-decreasing while the job runs, and a completed status implies
percentage 100; but the converse fails — the final `updateProgress` of
the cutover phase already sets 100 while the status is still `running`,
so percentage 100 does not imply `completed`. -/
theorem C2_percentage_monotone_and_completion :
    (∀ (opts : MigrationJobOptions) (jobId : String) (b f : ℕ),
      List.Chain' (· ≤ ·)
        ((migrationStates opts jobId b f).map Prod.snd)) ∧
    (∀ (opts : MigrationJobOptions) (jobId : String) (b f : ℕ)
        (s : JobStatus × ℚ), s ∈ migrationStates opts jobId b f →
      s.1 = .completed → s.2 = 100) ∧
    (JobStatus.running, (100 : ℚ)) ∈ migrationStates sampleOpts "j1" 1 1 := by
  refine ⟨?_, ?_, ?_⟩
  · intro opts jobId b f
    rw [migrationStates_shape]
    have hchain : BChain 0 100
        ((0 : ℚ) :: 0 ::
          ((runUpdates opts.configuration b f).map Prod.snd ++ [100])) := by
      apply bchain_cons
      apply bchain_cons
      exact bchain_append
        (bchain_mono (bchain_runUpdates opts.configuration b f)
          (by norm_num) le_rfl)
        (bchain_singleton 100 100 100 le_rfl le_rfl)
    have hmaps : ((JobStatus.pending, (0 : ℚ)) :: (JobStatus.running, 0) ::
        (((runUpdates opts.configuration b f).map
          fun u => (JobStatus.running, u.2)) ++
          [(.completed, 100)])).map Prod.snd =
        (0 : ℚ) :: 0 ::
          ((runUpdates opts.configuration b f).map Prod.snd ++ [100]) := by
      simp [List.map_map, Function.comp]
    rw [hmaps]
    exact hchain.1
  · intro opts jobId b f s hs hcs
    rw [migrationStates_shape] at hs
    rcases List.mem_cons.1 hs with hs | hs
    · subst hs
      cases hcs
    rcases List.mem_cons.1 hs with hs | hs
    · subst hs
      cases hcs
    rcases List.mem_append.1 hs with hs | hs
    · rw [List.mem_map] at hs
      obtain ⟨u, _, rfl⟩ := hs
      cases hcs
    · rw [List.mem_singleton] at hs
      subst hs
      rfl
  · rw [migrationStates_shape]
    refine List.mem_cons_of_mem _ (List.mem_cons_of_mem _ ?_)
    refine List.mem_append.2 (Or.inl ?_)
    rw [List.mem_map]
    refine ⟨("cutover", 100), ?_, rfl⟩
    simp [runUpdates, sampleOpts, sampleCfg]

/-- Witness for C2 (amended): the monotonicity and completion parts
instantiated on the sample run. -/
theorem C2_percentage_monotone_and_completion_witness :
    List.Chain' (· ≤ ·)
      ((migrationStates sampleOpts "j1" 1 1).map Prod.snd) ∧
    ((JobStatus.completed, (100 : ℚ)) ∈ migrationStates sampleOpts "j1" 1 1 →
      (100 : ℚ) = 100) :=
  ⟨C2_percentage_monotone_and_completion.1 sampleOpts "j1" 1 1,
   fun hmem => C2_percentage_monotone_and_completion.2.1 sampleOpts "j1" 1 1
     (JobStatus.completed, 100) hmem rfl⟩

/-- Counterexample for C2: in the fault-free sample run there is a state
with percentage 100 whose status is still `running` (the end of the
cutover phase, before the completion block) — percentage 100 does not
imply status `completed`. -/
theorem C2_percentage_iff_counterexample :
    ¬ (∀ s ∈ migrationStates sampleOpts "j1" 1 1,
        (s.2 = 100 ↔ s.1 = .completed)) := by
  intro h
  have hmem : (JobStatus.running, (100 : ℚ)) ∈
      migrationStates sampleOpts "j1" 1 1 := by
    rw [migrationStates_shape]
    refine List.mem_cons_of_mem _ (List.mem_cons_of_mem _ ?_)
    refine List.mem_append.2 (Or.inl ?_)
    rw [List.mem_map]
    refine ⟨("cutover", 100), ?_, rfl⟩
    simp [runUpdates, sampleOpts, sampleCfg]
  have := (h _ hmem).1 rfl
  cases this

end SupabaseCloner
